import Mathlib

/-!
# acme: the line3 and box3 entities and the MEX interface of the sphere

A shallow embedding of `src/src/acme.hh`, `src/src/acme_line3.hh`,
`src/src/acme_box3.hh` and `toolbox/src_mex/mex_sphere.cc`.

* The class templates `line3<T>` and `box3<T>` are instantiated twice. At exact
  rational scalars (`real_type`) for the properties that do not depend on
  rounding: structure of the member functions, symmetry, degeneracy, the
  constants. At `T = double` (namespace `binary64`, scalars `double` with
  rounding to nearest, NaN and the infinities) for the properties that do:
  reflexivity of the comparisons, composition of translations and the round
  trip of a transform through two frames.
* The classes `point3`, `vector3`, `plane3`, `ray3`, `frame3` and the scalar
  helper `acme::is_equal` are used by the sources but declared in headers that
  are not part of them; they are modelled from the specification and every such
  definition says so.
* The two transcendental functions of the external math library, the square
  root and the arc cosine, are parameters `sqrt` and `acos` of the definitions
  that need them.
* A mutating member function is a function from the old object to the new one.
* Overloads of one member function carry the type of their argument as a
  suffix (`is_parallel_line3`, `is_parallel_ray3`, `angle_plane3`), the
  operators `==` and `=` are `op_eq` and `op_assign`.
* Three member functions have a body that is not well-formed C++ and have no
  definition here: `operator!=` of both classes returns `!(this == input)`,
  the comparison of a pointer with an object; `box3::operator=` has the
  statements `this->_point0(input._point0)` and `this->_point1(input._point1)`,
  calls of a field where an assignment is meant; `box3::point_2` names a field
  `_point2` that the class does not declare.
-/

namespace acme

/-! ## Constants of acme.hh -/

/-- Real number type, `typedef double real_type`, taken as exact rationals. -/
abbrev real_type := ℚ

/-- High precision epsilon constant. -/
def Epsilon_High : real_type := 1.0e-16

/-- Medium precision epsilon constant. -/
def Epsilon_Medium : real_type := 1.0e-10

/-- Low precision epsilon constant. -/
def Epsilon_Low : real_type := 1.0e-07

/-- Standard precision epsilon constant. -/
def Epsilon : real_type := Epsilon_Medium

/-- The constant pi of acme.hh, with the digits of the source literal. -/
def PI : real_type := 3.141592653589793238462643383279500

/-! ## Scalars, points and vectors (headers absent from the sources) -/

/-- Modelled from the spec: the scalar helper `acme::is_equal` is not among the
sources; section 4.1 gives its contract, true iff `|a-b| < Epsilon`. -/
def is_equal (a b : real_type) : Bool := decide (|a - b| < Epsilon)

/-- Modelled from the spec: class `vector3` is not among the sources; section 3
gives a vector as 3 components. -/
structure vector3 where
  x : real_type
  y : real_type
  z : real_type
deriving DecidableEq

/-- Modelled from the spec: class `point3` (acme_point3.hh) is not among the
sources; section 3 gives a point as 3 coordinates. -/
structure point3 where
  x : real_type
  y : real_type
  z : real_type
deriving DecidableEq

namespace vector3

/-- Modelled from the spec: componentwise sum of two vectors (`v1 + v2`). -/
def add (a b : vector3) : vector3 := ⟨a.x + b.x, a.y + b.y, a.z + b.z⟩

/-- Modelled from the spec: unary minus of a vector. -/
def neg (a : vector3) : vector3 := ⟨-a.x, -a.y, -a.z⟩

/-- Modelled from the spec: product of a vector by a scalar. -/
def scale (k : real_type) (a : vector3) : vector3 := ⟨k * a.x, k * a.y, k * a.z⟩

/-- Modelled from the spec: dot product, one of the basic operations the
linear-algebra library is assumed to supply. -/
def dot (a b : vector3) : real_type := a.x * b.x + a.y * b.y + a.z * b.z

/-- Modelled from the spec: cross product, one of the basic operations the
linear-algebra library is assumed to supply. -/
def cross (a b : vector3) : vector3 :=
  ⟨a.y * b.z - a.z * b.y, a.z * b.x - a.x * b.z, a.x * b.y - a.y * b.x⟩

/-- Modelled from the spec: Euclidean norm, the square root of the dot product
of the vector with itself. -/
def norm (sqrt : real_type → real_type) (a : vector3) : real_type := sqrt (a.dot a)

/-- Modelled from the spec: exact equality `vector3::operator==`, equality of
the three components. -/
def op_eq (a b : vector3) : Bool := decide (a = b)

/-- Modelled from the spec: tolerant equality `vector3::is_equal`; section 4.1
routes every vector comparison through the scalar `is_equal`, here component by
component. -/
def is_equal (a b : vector3) : Bool :=
  acme.is_equal a.x b.x && acme.is_equal a.y b.y && acme.is_equal a.z b.z

/-- Modelled from the spec: `vector3::is_degenerated`; section 4.1: a vector is
degenerate when it is approximately the zero vector, its norm compared with
zero through the scalar `is_equal`. -/
def is_degenerated (sqrt : real_type → real_type) (a : vector3) : Bool :=
  acme.is_equal (a.norm sqrt) 0

/-- Modelled from the spec: `vector3::is_orthogonal`; the dot product of the
two vectors is compared with zero through the scalar `is_equal`. -/
def is_orthogonal (a b : vector3) : Bool := acme.is_equal (a.dot b) 0

/-- Modelled from the spec: `vector3::is_parallel`; section 4.4: the magnitude
of the cross product falls below the tolerance. -/
def is_parallel (sqrt : real_type → real_type) (a b : vector3) : Bool :=
  acme.is_equal ((a.cross b).norm sqrt) 0

/-- Modelled from the spec: `vector3::angle`, radians, via the dot product of
the two vectors divided by the product of their norms. -/
def angle (sqrt acos : real_type → real_type) (a b : vector3) : real_type :=
  acos (a.dot b / (a.norm sqrt * b.norm sqrt))

end vector3

namespace point3

/-- Modelled from the spec: the displacement from `q` to `p`. -/
def sub (p q : point3) : vector3 := ⟨p.x - q.x, p.y - q.y, p.z - q.z⟩

/-- Modelled from the spec: exact equality `point3::operator==`, equality of
the three coordinates. -/
def op_eq (p q : point3) : Bool := decide (p = q)

/-- Modelled from the spec: tolerant equality `point3::is_equal`; section 4.1
routes every comparison through the scalar `is_equal`, here coordinate by
coordinate. -/
def is_equal (p q : point3) : Bool :=
  acme.is_equal p.x q.x && acme.is_equal p.y q.y && acme.is_equal p.z q.z

/-- Modelled from the spec: `point3::distance`, the Euclidean distance between
two points, the norm of their difference. -/
def distance (sqrt : real_type → real_type) (p q : point3) : real_type :=
  (p.sub q).norm sqrt

/-- Modelled from the spec: `point3::translate`, the rigid shift of a point by
a 3D displacement (section 4.2). -/
def translate (p : point3) (input : vector3) : point3 :=
  ⟨p.x + input.x, p.y + input.y, p.z + input.z⟩

end point3

/-- Modelled from the spec: class `frame3` is not among the sources; section 3
gives a frame as an origin and a 3x3 basis whose columns are `ex`, `ey`, `ez`. -/
structure frame3 where
  origin : point3
  ex : vector3
  ey : vector3
  ez : vector3
deriving DecidableEq

namespace frame3

/-- Modelled from the spec: the invariant of a frame in section 3, the basis
columns are unit length and mutually orthogonal. -/
def is_orthonormal (F : frame3) : Prop :=
  F.ex.dot F.ex = 1 ∧ F.ey.dot F.ey = 1 ∧ F.ez.dot F.ez = 1 ∧
  F.ex.dot F.ey = 0 ∧ F.ex.dot F.ez = 0 ∧ F.ey.dot F.ez = 0

instance (F : frame3) : Decidable F.is_orthonormal := by
  unfold is_orthonormal; infer_instance

/-- Modelled from the spec: a vector with local components in `F`, expressed in
world coordinates (the basis applied to the components). -/
def to_world (F : frame3) (v : vector3) : vector3 :=
  ((F.ex.scale v.x).add (F.ey.scale v.y)).add (F.ez.scale v.z)

/-- Modelled from the spec: a world vector projected into the local
coordinates of `F` (its components along the three basis columns). -/
def to_local (F : frame3) (w : vector3) : vector3 :=
  ⟨w.dot F.ex, w.dot F.ey, w.dot F.ez⟩

end frame3

/-- Modelled from the spec: `vector3::transform` (section 4.2): express the
vector in world coordinates via `frameA`, then project it into the local
coordinates of `frameB`. -/
def vector3.transform (v : vector3) (frameA frameB : frame3) : vector3 :=
  frameB.to_local (frameA.to_world v)

/-- Modelled from the spec: `point3::transform` (section 4.2): express the
point in world coordinates via `frameA` (basis applied to the coordinates,
shifted by the origin of `frameA`), then project it into the local coordinates
of `frameB` (components of the displacement from the origin of `frameB`). -/
def point3.transform (p : point3) (frameA frameB : frame3) : point3 :=
  let w : point3 := frameA.origin.translate (frameA.to_world ⟨p.x, p.y, p.z⟩)
  let l : vector3 := frameB.to_local (w.sub frameB.origin)
  ⟨l.x, l.y, l.z⟩

/-- Modelled from the spec: class `plane3` is not among the sources; section 3
gives a plane as an origin point and a normal vector. -/
structure plane3 where
  origin : point3
  normal : vector3
deriving DecidableEq

/-- Modelled from the spec: class `ray3` is not among the sources; section 3
gives a ray as an origin point and a direction vector. -/
structure ray3 where
  origin : point3
  direction : vector3
deriving DecidableEq

/-! ## box3 (acme_box3.hh) -/

/-- Box class container: the two private fields of `box3`. -/
structure box3 where
  _point0 : point3
  _point1 : point3
deriving DecidableEq

namespace box3

/-- Check if objects are (exactly) equal, `box3::operator==`. -/
def op_eq (self input : box3) : Bool :=
  self._point0.op_eq input._point0 && self._point1.op_eq input._point1

/-- Check if objects are (almost) equal, `box3::is_equal`. -/
def is_equal (self input : box3) : Bool :=
  self._point0.is_equal input._point0 && self._point1.is_equal input._point1

/-- Check if box is degenerated, `box3::is_degenerated`. -/
def is_degenerated (sqrt : real_type → real_type) (self : box3) : Bool :=
  acme.is_equal (self._point0.distance sqrt self._point1) 0

/-- Get first point, the getter `box3::point_1(void)`: its body returns the
field `_point1`. -/
def point_1 (self : box3) : point3 := self._point1

/-- Set first point, the setter `box3::point_1(const point3<T> &)`: its body
assigns the field `_point1`; the result is the box after the call. The getter
and the setter `point_2` name a field `_point2` that the class does not declare,
so they have no instance and no definition here. -/
def point_1_set (self : box3) (input : point3) : box3 :=
  { self with _point1 := input }

/-- Translate by vector, `box3::translate`; the result is the box after the call. -/
def translate (self : box3) (input : vector3) : box3 :=
  ⟨self._point0.translate input, self._point1.translate input⟩

/-- Tranform box from frameA to frameB, `box3::transform`. -/
def transform (self : box3) (frameA frameB : frame3) : box3 :=
  ⟨self._point0.transform frameA frameB, self._point1.transform frameA frameB⟩

end box3

/-! ## line3 (acme_line3.hh) -/

/-- Line class container: the two private fields of `line3`. -/
structure line3 where
  _origin : point3
  _direction : vector3
deriving DecidableEq

namespace line3

/-- Check if objects are (exactly) equal, `line3::operator==`. -/
def op_eq (self input : line3) : Bool :=
  self._origin.op_eq input._origin && self._direction.op_eq input._direction

/-- Check if objects are (almost) equal, `line3::is_equal`. -/
def is_equal (self input : line3) : Bool :=
  self._origin.is_equal input._origin && self._direction.is_equal input._direction

/-- Return origin. -/
def origin (self : line3) : point3 := self._origin

/-- Return direction. -/
def direction (self : line3) : vector3 := self._direction

/-- Check if line is degenerated, `line3::is_degenerated`. -/
def is_degenerated (sqrt : real_type → real_type) (self : line3) : Bool :=
  self.direction.is_degenerated sqrt

/-- Translate line3 by vector3, `line3::translate`; the result is the line
after the call. -/
def translate (self : line3) (input : vector3) : line3 :=
  { self with _origin := self._origin.translate input }

/-- Check if objects are parallel, the overload `is_parallel(const line3<T> &)`. -/
def is_parallel_line3 (self input : line3) : Bool :=
  self._direction.is_equal input._direction

/-- Check if objects are parallel, the overload `is_parallel(const ray3<T> &)`. -/
def is_parallel_ray3 (sqrt : real_type → real_type) (self : line3) (input : ray3) : Bool :=
  self._direction.is_parallel sqrt input.direction

/-- Check if objects are orthogonal, the overload `is_orthogonal(const line3<T> &)`. -/
def is_orthogonal_line3 (self input : line3) : Bool :=
  self._direction.is_orthogonal input._direction

/-- Angle between objects [rad], the overload `angle(const plane3<T> &)`. -/
def angle_plane3 (sqrt acos : real_type → real_type) (self : line3) (input : plane3) :
    real_type :=
  self._direction.angle sqrt acos input.normal - PI / 2.0

/-- Reverse direction, `line3::reverse`; the result is the line after the call. -/
def reverse (self : line3) : line3 :=
  { self with _direction := self._direction.neg }

/-- Equality operator, `line3::operator=`. Its test `this == &input` compares the
addresses of two objects, so the operator is a function on a memory `mem` of
lines indexed by address: `this_addr` is the address of the receiver,
`input_addr` the address of the argument, and the result is the memory after the
assignment, the two fields written one after the other as in the source. -/
def op_assign (mem : Nat → line3) (this_addr input_addr : Nat) : Nat → line3 :=
  if this_addr = input_addr then
    mem
  else
    let mem1 := Function.update mem this_addr
      { mem this_addr with _origin := (mem input_addr)._origin }
    Function.update mem1 this_addr
      { mem1 this_addr with _direction := (mem1 input_addr)._direction }

/-- Tranform line from frameA to frameB, `line3::transform`. -/
def transform (self : line3) (frameA frameB : frame3) : line3 :=
  ⟨self._origin.transform frameA frameB, self._direction.transform frameA frameB⟩

end line3

/-! ## The MEX interface of the sphere (toolbox/src_mex/mex_sphere.cc)

The MATLAB API and the helpers of `mex_utils.hh` are not among the sources. A
call `mex_sphere(cmd, ...)` with `nlhs` requested outputs is modelled by `nlhs`
and the list `prhs` of its inputs, `nrhs` being the length of the list. The
pointer `self` of a command is what `DATA_GET(arg_in_1)` returns; the spheres
that such pointers designate are a memory `mem` of spheres indexed by address,
and a command that writes through `self` returns the memory after the call. A
command returns in `Except`: `mex_fault.error` is a call of `mexErrMsgTxt`, which
stops the command.
-/

/-- Scalar of the wrapper, `typedef double real_mex`: an exact rational, or the
quiet NaN that `do_new` stores in a sphere built without arguments. -/
inductive real_mex
  | QUIET_NAN
  | value (v : ℚ)
deriving DecidableEq

/-- Modelled from the spec: the 3-vector `acme::vec3` of the linear-algebra
library, built from three scalars. -/
structure vec3 where
  x : real_mex
  y : real_mex
  z : real_mex
deriving DecidableEq

/-- Modelled from the spec: class `acme::sphere` is not among the sources;
section 3 gives a sphere as a center point and a radius. -/
structure sphere where
  radius : real_mex
  center : vec3
deriving DecidableEq

/-- Modelled from the spec: the constructor `acme::sphere(r, cx, cy, cz)` used by
`do_new`, radius first, then the three coordinates of the center. -/
def sphere.ctor (r cx cy cz : real_mex) : sphere := ⟨r, ⟨cx, cy, cz⟩⟩

/-- The entity classes that `mex_sphere.cc` names as template argument of
`convertMat2Ptr` and `convertPtr2Mat` in `DATA_GET` and in the chains of its
commands: `acme::none`, `acme::point`, and so on. The class `acme::aabb`, named
by `do_clamp` only, is not in these chains. -/
inductive entity_kind
  | none
  | point
  | line
  | ray
  | plane
  | segment
  | triangle
  | circle
  | sphere
deriving DecidableEq

/-- A non-null pointer of static type `acme::kind *`; the null pointer is the
`none` of `Option entity_ptr`. -/
structure entity_ptr where
  kind : entity_kind
  addr : Nat
deriving DecidableEq

/-- Modelled from the spec: what the `acme::entity *` returned by
`acme::intersection` designates: the tag that its `type()` returns (section 6)
and the address of the object. -/
structure entity where
  type : String
  addr : Nat
deriving DecidableEq

/-- Modelled from the spec: a MATLAB value `mxArray`: a char array, a real
matrix with its dimensions and its buffer in column-major order (a scalar is a
1x1 matrix), a logical, or an opaque handle on an entity of a given class. -/
inductive mxArray
  | chars (s : String)
  | matrix (rows cols : Nat) (data : List real_mex)
  | logical (b : Bool)
  | object (kind : entity_kind) (addr : Nat)
deriving DecidableEq

/-- The ways a command stops without a result: `error` is `mexErrMsgTxt` with
its message; `undefined` is undefined behaviour of the C++ code (a read outside
a buffer or outside `prhs`, a string built from a null pointer). -/
inductive mex_fault
  | error (msg : String)
  | undefined
deriving DecidableEq

/-- Modelled from the spec: macro `MEX_ASSERT` of `mex_utils.hh`: the validation
of section 6; when the condition is false the command stops with the message. -/
def MEX_ASSERT (cond : Bool) (msg : String) : Except mex_fault Unit :=
  if cond then pure () else throw (mex_fault.error msg)

/-- Modelled from the spec: macros `arg_in_0`, `arg_in_1`, ... of `mex_utils.hh`,
the entry `prhs[k]` of the inputs. -/
def arg_in (prhs : List mxArray) (k : Nat) : Except mex_fault mxArray :=
  match prhs[k]? with
  | some a => pure a
  | Option.none => throw mex_fault.undefined

/-- Modelled from the spec: `mxIsChar` of the MATLAB API. -/
def mxIsChar (a : mxArray) : Bool :=
  match a with
  | mxArray.chars _ => true
  | _ => false

/-- Modelled from the spec: `mxArrayToString` of the MATLAB API followed by the
construction of a `std::string`; the API returns a null pointer for a value
that is not a char array. -/
def mxArrayToString (a : mxArray) : Except mex_fault String :=
  match a with
  | mxArray.chars s => pure s
  | _ => throw mex_fault.undefined

/-- Modelled from the spec: `getScalarValue` of `mex_utils.hh`: the value of a
1x1 matrix, an error with the given message for any other input. -/
def getScalarValue (a : mxArray) (msg : String) : Except mex_fault real_mex :=
  match a with
  | mxArray.matrix 1 1 [v] => pure v
  | _ => throw (mex_fault.error msg)

/-- Modelled from the spec: `getMatrixPointer` of `mex_utils.hh`: the buffer of a
matrix with its numbers of rows and columns, an error with the given message
for an input that is not a matrix. -/
def getMatrixPointer (a : mxArray) (msg : String) :
    Except mex_fault (List real_mex × Nat × Nat) :=
  match a with
  | mxArray.matrix rows cols data => pure (data, rows, cols)
  | _ => throw (mex_fault.error msg)

/-- The read `matrix_ptr[i]` of a buffer; outside the buffer it is undefined. -/
def read (matrix_ptr : List real_mex) (i : Nat) : Except mex_fault real_mex :=
  match matrix_ptr[i]? with
  | some v => pure v
  | Option.none => throw mex_fault.undefined

/-- Modelled from the spec: `convertMat2Ptr<acme::kind>` of `mex_utils.hh`: the
pointer held by an opaque handle (section 1); a handle is valid for the class
it was made with, any other value is an error. -/
def convertMat2Ptr (kind : entity_kind) (a : mxArray) : Except mex_fault entity_ptr :=
  match a with
  | mxArray.object k addr =>
    if k = kind then pure ⟨kind, addr⟩ else throw (mex_fault.error "Handle not valid.")
  | _ => throw (mex_fault.error "Input must be a real uint64 scalar.")

/-- The function `DATA_GET` of `mex_sphere.cc`: `convertMat2Ptr<acme::sphere>(mx_id)`,
the pointer on the sphere held by the handle OBJ, an error for any other value. -/
def DATA_GET (mx_id : mxArray) : Except mex_fault entity_ptr :=
  convertMat2Ptr entity_kind.sphere mx_id

/-- Modelled from the spec: `convertPtr2Mat<acme::kind>(dynamic_cast<acme::kind *>(out))`:
the handle of class `kind` on the object that `out` designates. -/
def convertPtr2Mat (kind : entity_kind) (out : entity) : mxArray :=
  mxArray.object kind out.addr

/-- Modelled from the spec: `setScalarValue` of `mex_utils.hh`, a 1x1 matrix. -/
def setScalarValue (v : real_mex) : mxArray := mxArray.matrix 1 1 [v]

/-- Modelled from the spec: `setBoolValue` of `mex_utils.hh`, a logical. -/
def setBoolValue (b : Bool) : mxArray := mxArray.logical b

/-- Modelled from the spec: `mxGetClassName` of the MATLAB API. -/
def mxGetClassName (a : mxArray) : String :=
  match a with
  | mxArray.chars _ => "char"
  | mxArray.matrix _ _ _ => "double"
  | mxArray.logical _ => "logical"
  | mxArray.object _ _ => "uint64"

/-- The command `new`, `do_new`: the sphere that the handle in `arg_out_0`
designates. -/
def do_new (nlhs : Nat) (prhs : List mxArray) : Except mex_fault sphere := do
  let CMD := "mex_sphere( 'new', [, args] ): "
  let nrhs := prhs.length
  MEX_ASSERT (nrhs == 1 || nrhs == 3 || nrhs == 5)
    (CMD ++ "expected 1, 3 or 5 inputs, nrhs = " ++ toString nrhs ++ "\n")
  MEX_ASSERT (nlhs == 1) (CMD ++ "expected 1 output, nlhs = " ++ toString nlhs ++ "\n")
  let arg_in_0 ← arg_in prhs 0
  MEX_ASSERT (mxIsChar arg_in_0)
    (CMD ++ "first argument must be a string, found ``" ++ mxGetClassName arg_in_0 ++
      "''\n")
  let mut r := real_mex.QUIET_NAN
  let mut cx := real_mex.QUIET_NAN
  let mut cy := real_mex.QUIET_NAN
  let mut cz := real_mex.QUIET_NAN
  if nrhs == 3 then
    r ← getScalarValue (← arg_in prhs 1) (CMD ++ "Error in reading radius value")
    let (matrix1_ptr, rows1, cols1) ←
      getMatrixPointer (← arg_in prhs 2) (CMD ++ "Error in first input matrix")
    MEX_ASSERT (rows1 == 3 || cols1 == 1)
      (CMD ++ "expected rows = 3 and cols = 1 found, rows = " ++ toString rows1 ++
        ", cols = " ++ toString cols1 ++ "\n")
    cx ← read matrix1_ptr 0
    cy ← read matrix1_ptr 1
    cz ← read matrix1_ptr 2
  else if nrhs == 5 then
    r ← getScalarValue (← arg_in prhs 1) (CMD ++ "Error in reading radius value")
    cx ← getScalarValue (← arg_in prhs 2) (CMD ++ "Error in reading center x value")
    cy ← getScalarValue (← arg_in prhs 3) (CMD ++ "Error in reading center y value")
    cz ← getScalarValue (← arg_in prhs 4) (CMD ++ "Error in reading center z value")
  return sphere.ctor r cx cy cz

/-- The command `getRadius`, `do_getRadius`: the value put in `arg_out_0`. -/
def do_getRadius (mem : Nat → sphere) (nlhs : Nat) (prhs : List mxArray) :
    Except mex_fault mxArray := do
  let CMD := "mex_sphere( 'getRadius', OBJ ): "
  let nrhs := prhs.length
  MEX_ASSERT (nrhs == 2) (CMD ++ "expected 2 inputs, nrhs = " ++ toString nrhs ++ "\n")
  MEX_ASSERT (nlhs == 1) (CMD ++ "expected 1 output, nlhs = " ++ toString nlhs ++ "\n")
  let self ← DATA_GET (← arg_in prhs 1)
  return setScalarValue (mem self.addr).radius

/-- The command `setRadius`, `do_setRadius`: the memory after the command and
the value put in `arg_out_0`. -/
def do_setRadius (mem : Nat → sphere) (nlhs : Nat) (prhs : List mxArray) :
    Except mex_fault ((Nat → sphere) × mxArray) := do
  let CMD := "mex_sphere( 'setRadius', OBJ, OTHER_OBJ ): "
  let nrhs := prhs.length
  MEX_ASSERT (nrhs == 3) (CMD ++ "expected 3 inputs, nrhs = " ++ toString nrhs ++ "\n")
  MEX_ASSERT (nlhs == 0) (CMD ++ "expected 0 output, nlhs = " ++ toString nlhs ++ "\n")
  let self ← DATA_GET (← arg_in prhs 1)
  return (mem, setScalarValue (mem self.addr).radius)

/-- The command `translate`, `do_translate`: the memory after the command. The
member function `sphere::translate` is the parameter `translate`. -/
def do_translate (translate : sphere → vec3 → sphere) (mem : Nat → sphere) (nlhs : Nat)
    (prhs : List mxArray) : Except mex_fault (Nat → sphere) := do
  let CMD := "mex_sphere( 'translate', OBJ, VECTOR ): "
  let nrhs := prhs.length
  MEX_ASSERT (nrhs == 3) (CMD ++ "expected 3 inputs, nrhs = " ++ toString nrhs ++ "\n")
  MEX_ASSERT (nlhs == 0) (CMD ++ "expected 0 output, nlhs = " ++ toString nlhs ++ "\n")
  let self ← DATA_GET (← arg_in prhs 1)
  let (matrix_ptr, rows, cols) ←
    getMatrixPointer (← arg_in prhs 2) (CMD ++ "Error in first input matrix")
  MEX_ASSERT (rows == 3 || cols == 1)
    (CMD ++ "expected rows = 3 and cols = 1 found, rows = " ++ toString rows ++
      ", cols = " ++ toString cols ++ "\n")
  let x ← read matrix_ptr 0
  let y ← read matrix_ptr 1
  let z ← read matrix_ptr 2
  return Function.update mem self.addr (translate (mem self.addr) ⟨x, y, z⟩)

/-- The command `transform`, `do_transform`: the memory after the command. The
member function `sphere::transform` is the parameter `transform`; its second
argument is the affine matrix, the 16 entries in the order of the source. -/
def do_transform (transform : sphere → List real_mex → sphere) (mem : Nat → sphere)
    (nlhs : Nat) (prhs : List mxArray) : Except mex_fault (Nat → sphere) := do
  let CMD := "mex_sphere( 'transform', OBJ, MATRIX ): "
  let nrhs := prhs.length
  MEX_ASSERT (nrhs == 3) (CMD ++ "expected 3 inputs, nrhs = " ++ toString nrhs ++ "\n")
  MEX_ASSERT (nlhs == 0) (CMD ++ "expected 0 output, nlhs = " ++ toString nlhs ++ "\n")
  let self ← DATA_GET (← arg_in prhs 1)
  let (matrix_ptr, rows, cols) ←
    getMatrixPointer (← arg_in prhs 2) (CMD ++ "Error in reading affine transformation matrix")
  MEX_ASSERT (rows == 4 || cols == 4)
    (CMD ++ "expected rows = 4 and cols = 4 found, rows = " ++ toString rows ++
      ", cols = " ++ toString cols ++ "\n")
  let matrix ← [0, 4, 8, 12, 1, 5, 9, 13, 2, 6, 10, 14, 3, 7, 11, 15].mapM (read matrix_ptr)
  return Function.update mem self.addr (transform (mem self.addr) matrix)

/-- The chain of comparisons on TYPE that sets `other`, written five times in the
source with the same branches: `do_isParallel` (lines 422-443), `do_isOrthogonal`
(461-482), `do_isCollinear` (501-522), `do_isCoplanar` (541-562) and
`do_intersection` (581-602). The pointer starts null and the chain has no final
`else`. -/
def select_other (type : String) (arg_in_2 : mxArray) :
    Except mex_fault (Option entity_ptr) := do
  let mut other : Option entity_ptr := Option.none
  if type = "none" then
    other := some (← convertMat2Ptr entity_kind.none arg_in_2)
  else if type = "point" then
    other := some (← convertMat2Ptr entity_kind.point arg_in_2)
  else if type = "line" then
    other := some (← convertMat2Ptr entity_kind.line arg_in_2)
  else if type = "ray" then
    other := some (← convertMat2Ptr entity_kind.ray arg_in_2)
  else if type = "plane" then
    other := some (← convertMat2Ptr entity_kind.plane arg_in_2)
  else if type = "segment" then
    other := some (← convertMat2Ptr entity_kind.segment arg_in_2)
  else if type = "triangle" then
    other := some (← convertMat2Ptr entity_kind.triangle arg_in_2)
  else if type = "circle" then
    other := some (← convertMat2Ptr entity_kind.circle arg_in_2)
  else if type = "sphere" then
    other := some (← convertMat2Ptr entity_kind.sphere arg_in_2)
  else if type = "sphere" then
    other := some (← convertMat2Ptr entity_kind.sphere arg_in_2)
  return other

/-- The command `isParallel`, `do_isParallel`: the value put in `arg_out_0`. The
core predicate `acme::isParallel` is the parameter `isParallel`; its first
argument is the pointer `self`, its second the pointer `other`, possibly null. -/
def do_isParallel (isParallel : entity_ptr → Option entity_ptr → Bool)
    (nlhs : Nat) (prhs : List mxArray) : Except mex_fault mxArray := do
  let CMD := "mex_sphere( 'isParallel', OBJ, OTHER_OBJ ): "
  let nrhs := prhs.length
  MEX_ASSERT (nrhs == 4) (CMD ++ "expected 4 inputs, nrhs = " ++ toString nrhs ++ "\n")
  MEX_ASSERT (nlhs == 1) (CMD ++ "expected 1 output, nlhs = " ++ toString nlhs ++ "\n")
  let self ← DATA_GET (← arg_in prhs 1)
  let type ← mxArrayToString (← arg_in prhs 3)
  let other ← select_other type (← arg_in prhs 2)
  return setBoolValue (isParallel self other)

/-- The command `isOrthogonal`, `do_isOrthogonal`: the value put in `arg_out_0`. -/
def do_isOrthogonal (isOrthogonal : entity_ptr → Option entity_ptr → Bool)
    (nlhs : Nat) (prhs : List mxArray) : Except mex_fault mxArray := do
  let CMD := "mex_sphere( 'isOrthogonal', OBJ, OTHER_OBJ ): "
  let nrhs := prhs.length
  MEX_ASSERT (nrhs == 4) (CMD ++ "expected 4 inputs, nrhs = " ++ toString nrhs ++ "\n")
  MEX_ASSERT (nlhs == 1) (CMD ++ "expected 1 output, nlhs = " ++ toString nlhs ++ "\n")
  let self ← DATA_GET (← arg_in prhs 1)
  let type ← mxArrayToString (← arg_in prhs 3)
  let other ← select_other type (← arg_in prhs 2)
  return setBoolValue (isOrthogonal self other)

/-- The command `isCollinear`, `do_isCollinear`: the value put in `arg_out_0`. -/
def do_isCollinear (isCollinear : entity_ptr → Option entity_ptr → Bool)
    (nlhs : Nat) (prhs : List mxArray) : Except mex_fault mxArray := do
  let CMD := "mex_sphere( 'isCollinear', OBJ, OTHER_OBJ ): "
  let nrhs := prhs.length
  MEX_ASSERT (nrhs == 4) (CMD ++ "expected 4 inputs, nrhs = " ++ toString nrhs ++ "\n")
  MEX_ASSERT (nlhs == 1) (CMD ++ "expected 1 output, nlhs = " ++ toString nlhs ++ "\n")
  let self ← DATA_GET (← arg_in prhs 1)
  let type ← mxArrayToString (← arg_in prhs 3)
  let other ← select_other type (← arg_in prhs 2)
  return setBoolValue (isCollinear self other)

/-- The command `isCoplanar`, `do_isCoplanar`: the value put in `arg_out_0`. -/
def do_isCoplanar (isCoplanar : entity_ptr → Option entity_ptr → Bool)
    (nlhs : Nat) (prhs : List mxArray) : Except mex_fault mxArray := do
  let CMD := "mex_sphere( 'isCoplanar', OBJ, OTHER_OBJ ): "
  let nrhs := prhs.length
  MEX_ASSERT (nrhs == 4) (CMD ++ "expected 4 inputs, nrhs = " ++ toString nrhs ++ "\n")
  MEX_ASSERT (nlhs == 1) (CMD ++ "expected 1 output, nlhs = " ++ toString nlhs ++ "\n")
  let self ← DATA_GET (← arg_in prhs 1)
  let type ← mxArrayToString (← arg_in prhs 3)
  let other ← select_other type (← arg_in prhs 2)
  return setBoolValue (isCoplanar self other)

/-- The chain of comparisons on `out_type` in `do_intersection` (lines 606-623)
that sets `arg_out_0`; the output starts unset and the chain has no final
`else`. -/
def rebox_out (out : entity) : Option mxArray :=
  let out_type := out.type
  if out_type = "none" then some (convertPtr2Mat entity_kind.none out)
  else if out_type = "point" then some (convertPtr2Mat entity_kind.point out)
  else if out_type = "line" then some (convertPtr2Mat entity_kind.line out)
  else if out_type = "ray" then some (convertPtr2Mat entity_kind.ray out)
  else if out_type = "plane" then some (convertPtr2Mat entity_kind.plane out)
  else if out_type = "segment" then some (convertPtr2Mat entity_kind.segment out)
  else if out_type = "triangle" then some (convertPtr2Mat entity_kind.triangle out)
  else if out_type = "circle" then some (convertPtr2Mat entity_kind.circle out)
  else if out_type = "sphere" then some (convertPtr2Mat entity_kind.sphere out)
  else Option.none

/-- The command `intersection`, `do_intersection`: the values put in `arg_out_0`
(unset when no branch of the chain matches) and in `arg_out_1`. The core function
`acme::intersection` is the parameter `intersection`. -/
def do_intersection (intersection : entity_ptr → Option entity_ptr → entity)
    (nlhs : Nat) (prhs : List mxArray) : Except mex_fault (Option mxArray × mxArray) := do
  let CMD := "mex_sphere( 'intersection', OBJ, OTHER_OBJ, TYPE ): "
  let nrhs := prhs.length
  MEX_ASSERT (nrhs == 4) (CMD ++ "expected 4 inputs, nrhs = " ++ toString nrhs ++ "\n")
  MEX_ASSERT (nlhs == 2) (CMD ++ "expected 2 output, nlhs = " ++ toString nlhs ++ "\n")
  let self ← DATA_GET (← arg_in prhs 1)
  let type ← mxArrayToString (← arg_in prhs 3)
  let other ← select_other type (← arg_in prhs 2)
  let out := intersection self other
  let out_type := out.type
  return (rebox_out out, mxArray.chars out_type)

/-! ## Double scalars

The class templates at `T = double`, the scalar type of the code
(`typedef double real_type`), for the claims whose truth depends on rounding, on
NaN or on the infinities: the comparisons, `translate` and `transform` of `line3`
and `box3`.
-/

/-- A value of the C++ type `double` (IEEE 754 binary64): NaN, an infinity, or a
finite value; the two zeros are not told apart. -/
inductive double
  | nan
  | pinf
  | ninf
  | fin (v : ℚ)
deriving DecidableEq

namespace double

/-- The integer nearest to `x`, the even one of the two when `x` is half way. -/
def rne (x : ℚ) : ℤ :=
  if x - ⌊x⌋ < 1 / 2 then ⌊x⌋
  else if 1 / 2 < x - ⌊x⌋ then ⌊x⌋ + 1
  else if ⌊x⌋ % 2 = 0 then ⌊x⌋ else ⌊x⌋ + 1

/-- The spacing of the doubles around `x`: 53 significant bits, the exponent
never below -1022. -/
def ulp (x : ℚ) : ℚ := 2 ^ (max (Int.log 2 |x|) (-1022) - 52)

/-- The double that an operation returns when its exact result is `x`: the
nearest double, ties to even, an infinity on overflow. -/
def round (x : ℚ) : double :=
  if x = 0 then fin 0
  else if (2 : ℚ) ^ (1024 : ℤ) ≤ |(rne (x / ulp x) : ℚ) * ulp x| then
    (if 0 < x then pinf else ninf)
  else fin ((rne (x / ulp x) : ℚ) * ulp x)

/-- Unary minus of doubles. -/
def neg : double → double
  | nan => nan
  | pinf => ninf
  | ninf => pinf
  | fin a => fin (-a)

/-- Addition of doubles, `a + b`. -/
def add : double → double → double
  | nan, _ => nan
  | _, nan => nan
  | pinf, ninf => nan
  | ninf, pinf => nan
  | pinf, _ => pinf
  | _, pinf => pinf
  | ninf, _ => ninf
  | _, ninf => ninf
  | fin a, fin b => round (a + b)

/-- Subtraction of doubles, `a - b`. -/
def sub (a b : double) : double := add a (neg b)

/-- Multiplication of doubles, `a * b`. -/
def mul : double → double → double
  | fin a, fin b => round (a * b)
  | nan, _ => nan
  | _, nan => nan
  | pinf, pinf => pinf
  | ninf, ninf => pinf
  | pinf, ninf => ninf
  | ninf, pinf => ninf
  | pinf, fin b => if b = 0 then nan else if 0 < b then pinf else ninf
  | ninf, fin b => if b = 0 then nan else if 0 < b then ninf else pinf
  | fin a, pinf => if a = 0 then nan else if 0 < a then pinf else ninf
  | fin a, ninf => if a = 0 then nan else if 0 < a then ninf else pinf

/-- Absolute value of a double, `std::abs`. -/
def abs : double → double
  | nan => nan
  | pinf => pinf
  | ninf => pinf
  | fin a => fin |a|

/-- Comparison of doubles, `a < b`: false as soon as one side is NaN. -/
def lt : double → double → Bool
  | fin a, fin b => decide (a < b)
  | fin _, pinf => true
  | ninf, fin _ => true
  | ninf, pinf => true
  | _, _ => false

/-- Comparison of doubles, `a == b`: false as soon as one side is NaN. -/
def op_eq : double → double → Bool
  | nan, _ => false
  | _, nan => false
  | a, b => decide (a = b)

end double

namespace binary64

/-- Standard precision epsilon constant of acme.hh as a double: the double nearest
to `1.0E-10`. -/
def Epsilon : double := double.fin (7737125245533627 / 2 ^ 86)

/-- Modelled from the spec: the scalar helper `acme::is_equal` on doubles; section
4.1 gives its contract, true iff `|a-b| < Epsilon`. -/
def is_equal (a b : double) : Bool := double.lt (double.abs (double.sub a b)) Epsilon

/-- Modelled from the spec: class `vector3` at `T = double`, 3 components. -/
structure vector3 where
  x : double
  y : double
  z : double
deriving DecidableEq

/-- Modelled from the spec: class `point3` at `T = double`, 3 coordinates. -/
structure point3 where
  x : double
  y : double
  z : double
deriving DecidableEq

namespace vector3

/-- Modelled from the spec: componentwise sum of two vectors (`v1 + v2`). -/
def add (a b : vector3) : vector3 := ⟨a.x.add b.x, a.y.add b.y, a.z.add b.z⟩

/-- Modelled from the spec: product of a vector by a scalar. -/
def scale (k : double) (a : vector3) : vector3 := ⟨k.mul a.x, k.mul a.y, k.mul a.z⟩

/-- Modelled from the spec: dot product, one of the basic operations the
linear-algebra library is assumed to supply. -/
def dot (a b : vector3) : double := ((a.x.mul b.x).add (a.y.mul b.y)).add (a.z.mul b.z)

/-- Modelled from the spec: exact equality `vector3::operator==`, the three
components compared with `==`. -/
def op_eq (a b : vector3) : Bool := a.x.op_eq b.x && a.y.op_eq b.y && a.z.op_eq b.z

/-- Modelled from the spec: tolerant equality `vector3::is_equal`, the three
components compared with the scalar `is_equal` (section 4.1). -/
def is_equal (a b : vector3) : Bool :=
  binary64.is_equal a.x b.x && binary64.is_equal a.y b.y && binary64.is_equal a.z b.z

end vector3

namespace point3

/-- Modelled from the spec: the displacement from `q` to `p`. -/
def sub (p q : point3) : vector3 := ⟨p.x.sub q.x, p.y.sub q.y, p.z.sub q.z⟩

/-- Modelled from the spec: exact equality `point3::operator==`, the three
coordinates compared with `==`. -/
def op_eq (p q : point3) : Bool := p.x.op_eq q.x && p.y.op_eq q.y && p.z.op_eq q.z

/-- Modelled from the spec: tolerant equality `point3::is_equal`, the three
coordinates compared with the scalar `is_equal` (section 4.1). -/
def is_equal (p q : point3) : Bool :=
  binary64.is_equal p.x q.x && binary64.is_equal p.y q.y && binary64.is_equal p.z q.z

/-- Modelled from the spec: `point3::translate`, the rigid shift of a point by
a 3D displacement (section 4.2). -/
def translate (p : point3) (input : vector3) : point3 :=
  ⟨p.x.add input.x, p.y.add input.y, p.z.add input.z⟩

end point3

/-- Modelled from the spec: class `frame3` at `T = double`; section 3 gives a frame
as an origin and a 3x3 basis whose columns are `ex`, `ey`, `ez`. -/
structure frame3 where
  origin : point3
  ex : vector3
  ey : vector3
  ez : vector3
deriving DecidableEq

namespace frame3

/-- Modelled from the spec: the invariant of a frame in section 3, evaluated in
double arithmetic: each basis column has dot product 1 with itself and 0 with
the other two. -/
def is_orthonormal (F : frame3) : Prop :=
  F.ex.dot F.ex = double.fin 1 ∧ F.ey.dot F.ey = double.fin 1 ∧
  F.ez.dot F.ez = double.fin 1 ∧ F.ex.dot F.ey = double.fin 0 ∧
  F.ex.dot F.ez = double.fin 0 ∧ F.ey.dot F.ez = double.fin 0

instance (F : frame3) : Decidable F.is_orthonormal := by
  unfold is_orthonormal; infer_instance

/-- Modelled from the spec: a vector with local components in `F`, expressed in
world coordinates (the basis applied to the components), every product and sum
a double operation. -/
def to_world (F : frame3) (v : vector3) : vector3 :=
  ((F.ex.scale v.x).add (F.ey.scale v.y)).add (F.ez.scale v.z)

/-- Modelled from the spec: a world vector projected into the local
coordinates of `F`, its dot products with the three basis columns. -/
def to_local (F : frame3) (w : vector3) : vector3 :=
  ⟨w.dot F.ex, w.dot F.ey, w.dot F.ez⟩

end frame3

/-- Modelled from the spec: `vector3::transform` (section 4.2) at `T = double`:
world coordinates via `frameA`, then local coordinates of `frameB`. -/
def vector3.transform (v : vector3) (frameA frameB : frame3) : vector3 :=
  frameB.to_local (frameA.to_world v)

/-- Modelled from the spec: `point3::transform` (section 4.2) at `T = double`:
world coordinates via `frameA` (basis applied to the coordinates, then the shift
by the origin of `frameA`), then local coordinates of `frameB` (projection of the
displacement from the origin of `frameB`). -/
def point3.transform (p : point3) (frameA frameB : frame3) : point3 :=
  let w : point3 := frameA.origin.translate (frameA.to_world ⟨p.x, p.y, p.z⟩)
  let l : vector3 := frameB.to_local (w.sub frameB.origin)
  ⟨l.x, l.y, l.z⟩

/-- Box class container at `T = double`: the two private fields of `box3`. -/
structure box3 where
  _point0 : point3
  _point1 : point3
deriving DecidableEq

namespace box3

/-- Check if objects are (exactly) equal, `box3::operator==`. -/
def op_eq (self input : box3) : Bool :=
  self._point0.op_eq input._point0 && self._point1.op_eq input._point1

/-- Check if objects are (almost) equal, `box3::is_equal`. -/
def is_equal (self input : box3) : Bool :=
  self._point0.is_equal input._point0 && self._point1.is_equal input._point1

/-- Translate by vector, `box3::translate`; the result is the box after the call. -/
def translate (self : box3) (input : vector3) : box3 :=
  ⟨self._point0.translate input, self._point1.translate input⟩

/-- Tranform box from frameA to frameB, `box3::transform`. -/
def transform (self : box3) (frameA frameB : frame3) : box3 :=
  ⟨self._point0.transform frameA frameB, self._point1.transform frameA frameB⟩

end box3

/-- Line class container at `T = double`: the two private fields of `line3`. -/
structure line3 where
  _origin : point3
  _direction : vector3
deriving DecidableEq

namespace line3

/-- Check if objects are (exactly) equal, `line3::operator==`. -/
def op_eq (self input : line3) : Bool :=
  self._origin.op_eq input._origin && self._direction.op_eq input._direction

/-- Check if objects are (almost) equal, `line3::is_equal`. -/
def is_equal (self input : line3) : Bool :=
  self._origin.is_equal input._origin && self._direction.is_equal input._direction

/-- Translate line3 by vector3, `line3::translate`; the result is the line
after the call. -/
def translate (self : line3) (input : vector3) : line3 :=
  { self with _origin := self._origin.translate input }

/-- Tranform line from frameA to frameB, `line3::transform`. -/
def transform (self : line3) (frameA frameB : frame3) : line3 :=
  ⟨self._origin.transform frameA frameB, self._direction.transform frameA frameB⟩

end line3

end binary64

/-! ## Stand-ins for the external math library -/

/-- Arc cosine of the external math library at the cosines 1, 0 and -1 of
axis-aligned directions, where its values are 0, PI/2 and PI. It instantiates the
parameter `acos` in evaluations on axis-aligned inputs; every other cosine is
mapped to PI/2 and is never used. The parameter `sqrt` is instantiated with
`Rat.sqrt`, which is the exact square root on squares of rationals. -/
def acos_axes (c : real_type) : real_type :=
  if c = 1 then 0 else if c = -1 then PI else PI / 2

/-! ## Facts about the scalar comparison -/

theorem Epsilon_pos : (0 : real_type) < Epsilon := by
  norm_num [Epsilon, Epsilon_Medium]

theorem is_equal_iff (a b : real_type) : is_equal a b = true ↔ |a - b| < Epsilon := by
  simp [is_equal]

theorem is_equal_self (a : real_type) : is_equal a a = true := by
  simp [is_equal, Epsilon_pos]

theorem is_equal_comm (a b : real_type) : is_equal a b = is_equal b a := by
  simp [is_equal, abs_sub_comm]

/-! ## C10: the tolerance tiers -/

/-- C10: the default tolerance Epsilon is Epsilon_Medium, whose value is 1e-10, and
the three tiers are strictly ordered, Epsilon_High = 1e-16 below
Epsilon_Medium = 1e-10 below Epsilon_Low = 1e-7. -/
theorem Epsilon_tiers :
    Epsilon = Epsilon_Medium ∧ Epsilon_Medium = 1 / 10 ^ 10 ∧
    Epsilon_High = 1 / 10 ^ 16 ∧ Epsilon_Low = 1 / 10 ^ 7 ∧
    Epsilon_High < Epsilon_Medium ∧ Epsilon_Medium < Epsilon_Low := by
  refine ⟨rfl, ?_, ?_, ?_, ?_, ?_⟩ <;> norm_num [Epsilon_Medium, Epsilon_High, Epsilon_Low]

/-! ## C1: degenerate boxes -/

theorem point3_distance_along_x (a : real_type) :
    point3.distance Rat.sqrt ⟨0, 0, 0⟩ ⟨a, 0, 0⟩ = |a| := by
  have h : point3.distance Rat.sqrt ⟨0, 0, 0⟩ ⟨a, 0, 0⟩ = Rat.sqrt (a * a) := by
    simp [point3.distance, point3.sub, vector3.norm, vector3.dot]
  rw [h, Rat.sqrt_eq]

/-- The rows of an orthonormal basis are orthonormal as well: the basis matrix has
its transpose as a left inverse, hence as a right inverse. -/
theorem frame3_rows_orthonormal (F : frame3) (h : F.is_orthonormal) :
    (F.ex.x * F.ex.x + F.ey.x * F.ey.x + F.ez.x * F.ez.x = 1 ∧
     F.ex.y * F.ex.y + F.ey.y * F.ey.y + F.ez.y * F.ez.y = 1 ∧
     F.ex.z * F.ex.z + F.ey.z * F.ey.z + F.ez.z * F.ez.z = 1) ∧
    (F.ex.x * F.ex.y + F.ey.x * F.ey.y + F.ez.x * F.ez.y = 0 ∧
     F.ex.x * F.ex.z + F.ey.x * F.ey.z + F.ez.x * F.ez.z = 0 ∧
     F.ex.y * F.ex.z + F.ey.y * F.ey.z + F.ez.y * F.ez.z = 0) := by
  obtain ⟨h1, h2, h3, h4, h5, h6⟩ := h
  simp only [vector3.dot] at h1 h2 h3 h4 h5 h6
  let M : Matrix (Fin 3) (Fin 3) ℚ :=
    !![F.ex.x, F.ey.x, F.ez.x; F.ex.y, F.ey.y, F.ez.y; F.ex.z, F.ey.z, F.ez.z]
  let N : Matrix (Fin 3) (Fin 3) ℚ :=
    !![F.ex.x, F.ex.y, F.ex.z; F.ey.x, F.ey.y, F.ey.z; F.ez.x, F.ez.y, F.ez.z]
  have hl : N * M = 1 := by
    ext i j
    fin_cases i <;> fin_cases j <;>
      simp [M, N, Matrix.mul_apply, Fin.sum_univ_three] <;> linarith
  have hr : M * N = 1 := Matrix.mul_eq_one_comm.mp hl
  have e (i j : Fin 3) : (M * N) i j = (1 : Matrix (Fin 3) (Fin 3) ℚ) i j := by
    rw [hr]
  have e00 := e 0 0
  have e11 := e 1 1
  have e22 := e 2 2
  have e01 := e 0 1
  have e02 := e 0 2
  have e12 := e 1 2
  simp [M, N, Matrix.mul_apply, Fin.sum_univ_three] at e00 e11 e22 e01 e02 e12
  exact ⟨⟨e00, e11, e22⟩, e01, e02, e12⟩

/-- Projecting into an orthonormal frame undoes expressing in world coordinates. -/
theorem frame3_to_local_to_world (F : frame3) (h : F.is_orthonormal) (v : vector3) :
    F.to_local (F.to_world v) = v := by
  obtain ⟨h1, h2, h3, h4, h5, h6⟩ := h
  simp only [vector3.dot] at h1 h2 h3 h4 h5 h6
  obtain ⟨a, b, c⟩ := v
  simp only [frame3.to_local, frame3.to_world, vector3.add, vector3.scale, vector3.dot,
    vector3.mk.injEq]
  refine ⟨?_, ?_, ?_⟩
  · linear_combination a * h1 + b * h4 + c * h5
  · linear_combination a * h4 + b * h2 + c * h6
  · linear_combination a * h5 + b * h6 + c * h3

/-- Expressing in world coordinates undoes projecting into an orthonormal frame. -/
theorem frame3_to_world_to_local (F : frame3) (h : F.is_orthonormal) (w : vector3) :
    F.to_world (F.to_local w) = w := by
  obtain ⟨⟨r1, r2, r3⟩, r4, r5, r6⟩ := frame3_rows_orthonormal F h
  obtain ⟨a, b, c⟩ := w
  simp only [frame3.to_local, frame3.to_world, vector3.add, vector3.scale, vector3.dot,
    vector3.mk.injEq]
  refine ⟨?_, ?_, ?_⟩
  · linear_combination a * r1 + b * r4 + c * r5
  · linear_combination a * r4 + b * r2 + c * r6
  · linear_combination a * r5 + b * r6 + c * r3

/-- A vector taken from frame F1 to frame F2 and back is the vector itself. -/
theorem vector3_transform_round_trip (v : vector3) (F1 F2 : frame3)
    (h1 : F1.is_orthonormal) (h2 : F2.is_orthonormal) :
    (v.transform F1 F2).transform F2 F1 = v := by
  simp only [vector3.transform]
  rw [frame3_to_world_to_local F2 h2, frame3_to_local_to_world F1 h1]

/-- A point taken from frame F1 to frame F2 and back is the point itself. -/
theorem point3_transform_round_trip (p : point3) (F1 F2 : frame3)
    (h1 : F1.is_orthonormal) (h2 : F2.is_orthonormal) :
    (p.transform F1 F2).transform F2 F1 = p := by
  have hw (w : vector3) : F2.to_world ⟨(F2.to_local w).x, (F2.to_local w).y,
      (F2.to_local w).z⟩ = w := frame3_to_world_to_local F2 h2 w
  have hl := frame3_to_local_to_world F1 h1 ⟨p.x, p.y, p.z⟩
  obtain ⟨a, b, c⟩ := p
  simp only [point3.transform]
  rw [hw]
  have hs : (F2.origin.translate ((F1.origin.translate (F1.to_world ⟨a, b, c⟩)).sub
      F2.origin)).sub F1.origin = F1.to_world ⟨a, b, c⟩ := by
    simp [point3.translate, point3.sub]
  rw [hs, hl]

theorem vector3_is_equal_self (v : vector3) : v.is_equal v = true := by
  simp [vector3.is_equal, is_equal_self]

theorem point3_is_equal_self (p : point3) : p.is_equal p = true := by
  simp [point3.is_equal, is_equal_self]

/-- Over exact scalars, for frames whose basis is exactly orthonormal, transforming a
line3 or a box3 from F1 to F2 and back from F2 to F1 is the identity, so the result
is approximately equal to the original. Nothing follows for double arithmetic,
where each step rounds. -/
theorem transform_round_trip_is_equal (l : line3) (b : box3) (F1 F2 : frame3)
    (h1 : F1.is_orthonormal) (h2 : F2.is_orthonormal) :
    ((l.transform F1 F2).transform F2 F1).is_equal l = true ∧
    ((b.transform F1 F2).transform F2 F1).is_equal b = true := by
  constructor
  · simp only [line3.transform, line3.is_equal]
    rw [point3_transform_round_trip _ F1 F2 h1 h2, vector3_transform_round_trip _ F1 F2 h1 h2]
    simp [point3_is_equal_self, vector3_is_equal_self]
  · simp only [box3.transform, box3.is_equal]
    rw [point3_transform_round_trip _ F1 F2 h1 h2, point3_transform_round_trip _ F1 F2 h1 h2]
    simp [point3_is_equal_self]

/-- An instance of the exact round trip: the world frame and a frame at (1,2,3) whose
basis is the world basis rotated about the z axis (cosine 3/5, sine 4/5) are
orthonormal; a line and a box taken from the first to the second and back are
approximately equal to the originals. -/
theorem transform_round_trip_is_equal_witness :
    frame3.is_orthonormal ⟨⟨0, 0, 0⟩, ⟨1, 0, 0⟩, ⟨0, 1, 0⟩, ⟨0, 0, 1⟩⟩ ∧
    frame3.is_orthonormal ⟨⟨1, 2, 3⟩, ⟨3 / 5, 4 / 5, 0⟩, ⟨-4 / 5, 3 / 5, 0⟩, ⟨0, 0, 1⟩⟩ ∧
    (((⟨⟨1, 1, 1⟩, ⟨1, 0, 0⟩⟩ : line3).transform
        ⟨⟨0, 0, 0⟩, ⟨1, 0, 0⟩, ⟨0, 1, 0⟩, ⟨0, 0, 1⟩⟩
        ⟨⟨1, 2, 3⟩, ⟨3 / 5, 4 / 5, 0⟩, ⟨-4 / 5, 3 / 5, 0⟩, ⟨0, 0, 1⟩⟩).transform
        ⟨⟨1, 2, 3⟩, ⟨3 / 5, 4 / 5, 0⟩, ⟨-4 / 5, 3 / 5, 0⟩, ⟨0, 0, 1⟩⟩
        ⟨⟨0, 0, 0⟩, ⟨1, 0, 0⟩, ⟨0, 1, 0⟩, ⟨0, 0, 1⟩⟩).is_equal ⟨⟨1, 1, 1⟩, ⟨1, 0, 0⟩⟩ = true ∧
    (((⟨⟨0, 0, 0⟩, ⟨1, 2, 3⟩⟩ : box3).transform
        ⟨⟨0, 0, 0⟩, ⟨1, 0, 0⟩, ⟨0, 1, 0⟩, ⟨0, 0, 1⟩⟩
        ⟨⟨1, 2, 3⟩, ⟨3 / 5, 4 / 5, 0⟩, ⟨-4 / 5, 3 / 5, 0⟩, ⟨0, 0, 1⟩⟩).transform
        ⟨⟨1, 2, 3⟩, ⟨3 / 5, 4 / 5, 0⟩, ⟨-4 / 5, 3 / 5, 0⟩, ⟨0, 0, 1⟩⟩
        ⟨⟨0, 0, 0⟩, ⟨1, 0, 0⟩, ⟨0, 1, 0⟩, ⟨0, 0, 1⟩⟩).is_equal ⟨⟨0, 0, 0⟩, ⟨1, 2, 3⟩⟩ = true := by
  have h1 : frame3.is_orthonormal ⟨⟨0, 0, 0⟩, ⟨1, 0, 0⟩, ⟨0, 1, 0⟩, ⟨0, 0, 1⟩⟩ := by
    norm_num [frame3.is_orthonormal, vector3.dot]
  have h2 : frame3.is_orthonormal
      ⟨⟨1, 2, 3⟩, ⟨3 / 5, 4 / 5, 0⟩, ⟨-4 / 5, 3 / 5, 0⟩, ⟨0, 0, 1⟩⟩ := by
    norm_num [frame3.is_orthonormal, vector3.dot]
  have h := transform_round_trip_is_equal ⟨⟨1, 1, 1⟩, ⟨1, 0, 0⟩⟩ ⟨⟨0, 0, 0⟩, ⟨1, 2, 3⟩⟩ _ _ h1 h2
  exact ⟨h1, h2, h.1, h.2⟩

/-! ## Rounding of doubles -/

theorem double_ulp_eq (x : ℚ) (e : ℤ) (hx : x ≠ 0) (h1 : (2 : ℚ) ^ e ≤ |x|)
    (h2 : |x| < (2 : ℚ) ^ (e + 1)) (he : -1022 ≤ e) : double.ulp x = 2 ^ (e - 52) := by
  have hpos : 0 < |x| := abs_pos.mpr hx
  have hlog : Int.log 2 |x| = e := by
    apply le_antisymm
    · have := (Int.lt_zpow_iff_log_lt (b := 2) (by norm_num) (x := e + 1) hpos).mp
        (by simpa using h2)
      omega
    · exact (Int.zpow_le_iff_le_log (b := 2) (by norm_num) hpos).mp (by simpa using h1)
  simp [double.ulp, hlog, max_eq_left he]

/-- A non-zero value that is an integer multiple of the spacing of its binade is a
double: an operation whose exact result it is returns it unrounded. -/
theorem double_round_exact (x : ℚ) (e n : ℤ) (hx : x ≠ 0) (h1 : (2 : ℚ) ^ e ≤ |x|)
    (h2 : |x| < (2 : ℚ) ^ (e + 1)) (he : -1022 ≤ e)
    (hn : x / 2 ^ (e - 52) = n) (hm : |x| < 2 ^ (1024 : ℤ)) :
    double.round x = double.fin x := by
  have hu := double_ulp_eq x e hx h1 h2 he
  have hr : double.rne (x / 2 ^ (e - 52)) = n := by
    unfold double.rne
    rw [hn]
    simp
  have hp : (2 : ℚ) ^ (e - 52) ≠ 0 := zpow_ne_zero _ (by norm_num)
  have hb : (n : ℚ) * 2 ^ (e - 52) = x := by
    rw [← hn]
    field_simp
  simp only [double.round, hx, hu, hr, hb, not_le.mpr hm, if_false]

/-- Rounding of a positive exact result `x` in the binade of `2 ^ e` whose quotient by
the spacing has integer part `n` and a fractional part below one half. -/
theorem double_round_down (x : ℚ) (e n : ℤ) (hx : 0 < x) (h1 : (2 : ℚ) ^ e ≤ x)
    (h2 : x < (2 : ℚ) ^ (e + 1)) (he : -1022 ≤ e)
    (hf : ⌊x / 2 ^ (e - 52)⌋ = n) (hr : x / 2 ^ (e - 52) - n < 1 / 2)
    (hm : |(n : ℚ) * 2 ^ (e - 52)| < 2 ^ (1024 : ℤ)) :
    double.round x = double.fin (n * 2 ^ (e - 52)) := by
  have hu := double_ulp_eq x e hx.ne' (by rwa [abs_of_pos hx]) (by rwa [abs_of_pos hx]) he
  have hn : double.rne (x / 2 ^ (e - 52)) = n := by
    unfold double.rne
    rw [hf, if_pos hr]
  simp [double.round, hx.ne', hu, hn, not_le.mpr hm]

/-- Rounding of a positive exact result `x` in the binade of `2 ^ e` whose quotient by
the spacing has integer part `n` and a fractional part above one half. -/
theorem double_round_up (x : ℚ) (e n : ℤ) (hx : 0 < x) (h1 : (2 : ℚ) ^ e ≤ x)
    (h2 : x < (2 : ℚ) ^ (e + 1)) (he : -1022 ≤ e)
    (hf : ⌊x / 2 ^ (e - 52)⌋ = n) (hr : 1 / 2 < x / 2 ^ (e - 52) - n)
    (hm : |((n + 1 : ℤ) : ℚ) * 2 ^ (e - 52)| < 2 ^ (1024 : ℤ)) :
    double.round x = double.fin (((n + 1 : ℤ) : ℚ) * 2 ^ (e - 52)) := by
  have hu := double_ulp_eq x e hx.ne' (by rwa [abs_of_pos hx]) (by rwa [abs_of_pos hx]) he
  have hn : double.rne (x / 2 ^ (e - 52)) = n + 1 := by
    unfold double.rne
    rw [hf, if_neg (not_lt.mpr hr.le), if_pos hr]
  simp only [double.round, hx.ne', hu, hn, not_le.mpr hm, if_false]

/-- The constant Epsilon of the double instance is the double nearest to 1.0E-10. -/
theorem double_round_Epsilon : double.round 1.0e-10 = binary64.Epsilon := by
  have h := double_round_up (1.0e-10) (-34) 7737125245533626 (by norm_num) (by norm_num)
    (by norm_num) (by norm_num)
    (by rw [Int.floor_eq_iff]; norm_num) (by norm_num) (by norm_num [abs_of_pos])
  rw [h, binary64.Epsilon]
  norm_num

theorem double_round_zero : double.round 0 = double.fin 0 := by
  simp [double.round]

theorem double_mul_fin_zero (a : ℚ) :
    (double.fin a).mul (double.fin 0) = double.fin 0 := by
  simp [double.mul, double.round]

theorem double_zero_mul_fin (b : ℚ) :
    (double.fin 0).mul (double.fin b) = double.fin 0 := by
  simp [double.mul, double.round]

theorem double_add_zero_zero : (double.fin 0).add (double.fin 0) = double.fin 0 := by
  simp [double.add, double.round]

theorem double_sub_zero_zero : (double.fin 0).sub (double.fin 0) = double.fin 0 := by
  simp [double.sub, double.neg, double.add, double.round]

/-- Multiplying a double by one returns it. -/
theorem double_mul_fin_one (a : ℚ) (h : double.round a = double.fin a) :
    (double.fin a).mul (double.fin 1) = double.fin a := by
  simp [double.mul, h]

/-- Adding zero to a double returns it. -/
theorem double_add_fin_zero (a : ℚ) (h : double.round a = double.fin a) :
    (double.fin a).add (double.fin 0) = double.fin a := by
  simp [double.add, h]

/-- Adding a double to zero returns it. -/
theorem double_zero_add_fin (a : ℚ) (h : double.round a = double.fin a) :
    (double.fin 0).add (double.fin a) = double.fin a := by
  simp [double.add, h]

/-! ## C2: transform round trip -/

/-- The double one is a double. -/
theorem double_round_one : double.round 1 = double.fin 1 :=
  double_round_exact 1 0 (2 ^ 52) (by norm_num) (by norm_num) (by norm_num) (by norm_num)
    (by norm_num) (by norm_num)

/-- An instance where the tolerance absorbs the rounding: in double arithmetic, with F1
the world frame and F2 the frame with the same basis and origin (-1, 0, 0), the line
with origin (2^-60, 0, 0) and direction (1, 0, 0) taken from F1 to F2 and back has
its origin at (0, 0, 0), not the original origin, and is approximately equal to the
original line. -/
theorem double_transform_round_trip_within_tolerance :
    (((⟨⟨double.fin (1 / 2 ^ 60), double.fin 0, double.fin 0⟩,
        ⟨double.fin 1, double.fin 0, double.fin 0⟩⟩ : binary64.line3).transform
        ⟨⟨double.fin 0, double.fin 0, double.fin 0⟩,
          ⟨double.fin 1, double.fin 0, double.fin 0⟩,
          ⟨double.fin 0, double.fin 1, double.fin 0⟩,
          ⟨double.fin 0, double.fin 0, double.fin 1⟩⟩
        ⟨⟨double.fin (-1), double.fin 0, double.fin 0⟩,
          ⟨double.fin 1, double.fin 0, double.fin 0⟩,
          ⟨double.fin 0, double.fin 1, double.fin 0⟩,
          ⟨double.fin 0, double.fin 0, double.fin 1⟩⟩).transform
        ⟨⟨double.fin (-1), double.fin 0, double.fin 0⟩,
          ⟨double.fin 1, double.fin 0, double.fin 0⟩,
          ⟨double.fin 0, double.fin 1, double.fin 0⟩,
          ⟨double.fin 0, double.fin 0, double.fin 1⟩⟩
        ⟨⟨double.fin 0, double.fin 0, double.fin 0⟩,
          ⟨double.fin 1, double.fin 0, double.fin 0⟩,
          ⟨double.fin 0, double.fin 1, double.fin 0⟩,
          ⟨double.fin 0, double.fin 0, double.fin 1⟩⟩)._origin
      = ⟨double.fin 0, double.fin 0, double.fin 0⟩ ∧
    (((⟨⟨double.fin (1 / 2 ^ 60), double.fin 0, double.fin 0⟩,
        ⟨double.fin 1, double.fin 0, double.fin 0⟩⟩ : binary64.line3).transform
        ⟨⟨double.fin 0, double.fin 0, double.fin 0⟩,
          ⟨double.fin 1, double.fin 0, double.fin 0⟩,
          ⟨double.fin 0, double.fin 1, double.fin 0⟩,
          ⟨double.fin 0, double.fin 0, double.fin 1⟩⟩
        ⟨⟨double.fin (-1), double.fin 0, double.fin 0⟩,
          ⟨double.fin 1, double.fin 0, double.fin 0⟩,
          ⟨double.fin 0, double.fin 1, double.fin 0⟩,
          ⟨double.fin 0, double.fin 0, double.fin 1⟩⟩).transform
        ⟨⟨double.fin (-1), double.fin 0, double.fin 0⟩,
          ⟨double.fin 1, double.fin 0, double.fin 0⟩,
          ⟨double.fin 0, double.fin 1, double.fin 0⟩,
          ⟨double.fin 0, double.fin 0, double.fin 1⟩⟩
        ⟨⟨double.fin 0, double.fin 0, double.fin 0⟩,
          ⟨double.fin 1, double.fin 0, double.fin 0⟩,
          ⟨double.fin 0, double.fin 1, double.fin 0⟩,
          ⟨double.fin 0, double.fin 0, double.fin 1⟩⟩).is_equal
        ⟨⟨double.fin (1 / 2 ^ 60), double.fin 0, double.fin 0⟩,
          ⟨double.fin 1, double.fin 0, double.fin 0⟩⟩ = true := by
  have ra : double.round (1 / 2 ^ 60) = double.fin (1 / 2 ^ 60) :=
    double_round_exact (1 / 2 ^ 60) (-60) (2 ^ 52) (by norm_num) (by norm_num [abs_of_pos])
      (by norm_num [abs_of_pos]) (by norm_num) (by norm_num) (by norm_num [abs_of_pos])
  have rn : double.round (-(1 / 2 ^ 60)) = double.fin (-(1 / 2 ^ 60)) :=
    double_round_exact (-(1 / 2 ^ 60)) (-60) (-2 ^ 52) (by norm_num)
      (by norm_num [abs_of_pos]) (by norm_num [abs_of_pos]) (by norm_num) (by norm_num)
      (by norm_num [abs_of_pos])
  have rs : double.round (1 / 2 ^ 60 + 1) = double.fin 1 := by
    have h := double_round_down (1 / 2 ^ 60 + 1) 0 (2 ^ 52) (by norm_num)
      (by norm_num) (by norm_num) (by norm_num)
      (by rw [Int.floor_eq_iff]; norm_num) (by norm_num) (by norm_num [abs_of_pos])
    rw [h]
    norm_num
  have s1 : (double.fin (1 / 2 ^ 60)).sub (double.fin (-1)) = double.fin 1 := by
    show double.round (1 / 2 ^ 60 + - -1) = _
    rw [neg_neg]
    exact rs
  have s2 : (double.fin (-1)).add (double.fin 1) = double.fin 0 := by
    show double.round (-1 + 1) = _
    rw [neg_add_cancel]
    exact double_round_zero
  have s3 : (double.fin 0).sub (double.fin (1 / 2 ^ 60)) = double.fin (-(1 / 2 ^ 60)) := by
    show double.round (0 + -(1 / 2 ^ 60)) = _
    rw [zero_add]
    exact rn
  have s4 : (double.fin 1).sub (double.fin 1) = double.fin 0 := by
    show double.round (1 + -1) = _
    rw [add_neg_cancel]
    exact double_round_zero
  have ha := double_mul_fin_one _ ra
  have ha0 := double_add_fin_zero _ ra
  have h0a := double_zero_add_fin _ ra
  have hb := double_mul_fin_one _ double_round_one
  have hb0 := double_add_fin_zero _ double_round_one
  have e1 : binary64.is_equal (double.fin 0) (double.fin (1 / 2 ^ 60)) = true := by
    rw [binary64.is_equal, s3]
    simp only [double.abs, binary64.Epsilon, double.lt, decide_eq_true_eq]
    norm_num [abs_of_pos]
  have e2 : binary64.is_equal (double.fin 0) (double.fin 0) = true := by
    rw [binary64.is_equal, double_sub_zero_zero]
    simp only [double.abs, binary64.Epsilon, double.lt, decide_eq_true_eq]
    norm_num
  have e3 : binary64.is_equal (double.fin 1) (double.fin 1) = true := by
    rw [binary64.is_equal, s4]
    simp only [double.abs, binary64.Epsilon, double.lt, decide_eq_true_eq]
    norm_num
  constructor
  · simp only [binary64.line3.transform, binary64.point3.transform, binary64.frame3.to_world,
      binary64.frame3.to_local, binary64.vector3.scale, binary64.vector3.add,
      binary64.vector3.dot, binary64.point3.translate, binary64.point3.sub,
      double_mul_fin_zero, double_zero_mul_fin, double_add_zero_zero, double_sub_zero_zero,
      ha, ha0, h0a, hb, hb0, s1, s2]
  · simp only [binary64.line3.transform, binary64.line3.is_equal, binary64.point3.transform,
      binary64.vector3.transform, binary64.frame3.to_world,
      binary64.frame3.to_local, binary64.vector3.scale, binary64.vector3.add,
      binary64.vector3.dot, binary64.point3.translate, binary64.point3.sub,
      binary64.point3.is_equal, binary64.vector3.is_equal,
      double_mul_fin_zero, double_zero_mul_fin, double_add_zero_zero, double_sub_zero_zero,
      ha, ha0, h0a, hb, hb0, s1, s2, e1, e2, e3, Bool.and_self]

/-! ## C3: translate composition -/

theorem point3_translate_translate (p : point3) (v1 v2 : vector3) :
    (p.translate v1).translate v2 = p.translate (v1.add v2) := by
  simp [point3.translate, vector3.add, add_assoc]

/-- Over exact scalars, where addition is associative, translating a line3 or a box3 by
v1 and then by v2 gives the same state as a single translation by v1 + v2. -/
theorem translate_translate (l : line3) (b : box3) (v1 v2 : vector3) :
    (l.translate v1).translate v2 = l.translate (v1.add v2) ∧
    (b.translate v1).translate v2 = b.translate (v1.add v2) := by
  constructor
  · simp [line3.translate, point3_translate_translate]
  · simp [box3.translate, point3_translate_translate]

theorem double_add_two54_three_halves :
    double.add (double.fin (2 ^ 54)) (double.fin (3 / 2)) = double.fin (2 ^ 54) := by
  have h := double_round_down (2 ^ 54 + 3 / 2) 54 (2 ^ 52) (by norm_num) (by norm_num)
    (by norm_num) (by norm_num)
    (by rw [Int.floor_eq_iff]; norm_num) (by norm_num) (by norm_num [abs_of_pos])
  rw [double.add, h]
  norm_num

theorem double_add_three_halves_twice :
    double.add (double.fin (3 / 2)) (double.fin (3 / 2)) = double.fin 3 := by
  have h := double_round_down 3 1 (3 * 2 ^ 51) (by norm_num) (by norm_num)
    (by norm_num) (by norm_num)
    (by rw [Int.floor_eq_iff]; norm_num) (by norm_num) (by norm_num [abs_of_pos])
  have e : (3 / 2 + 3 / 2 : ℚ) = 3 := by norm_num
  rw [double.add, e, h]
  norm_num

theorem double_add_two54_three :
    double.add (double.fin (2 ^ 54)) (double.fin 3) = double.fin (2 ^ 54 + 4) := by
  have h := double_round_up (2 ^ 54 + 3) 54 (2 ^ 52) (by norm_num) (by norm_num)
    (by norm_num) (by norm_num)
    (by rw [Int.floor_eq_iff]; norm_num) (by norm_num) (by norm_num [abs_of_pos])
  rw [double.add, h]
  norm_num

/-- C3, as stated, fails: in double arithmetic, for the line with origin (2^54, 0, 0)
and the box with both corners at (2^54, 0, 0), translating by (1.5, 0, 0) twice
leaves the x coordinate at 2^54, each sum rounding back to it, while a single
translation by (1.5, 0, 0) + (1.5, 0, 0) = (3, 0, 0) moves it to 2^54 + 4; the two
states differ. -/
theorem double_translate_twice_differs :
    (((⟨⟨double.fin (2 ^ 54), double.fin 0, double.fin 0⟩,
        ⟨double.fin 1, double.fin 0, double.fin 0⟩⟩ : binary64.line3).translate
        ⟨double.fin (3 / 2), double.fin 0, double.fin 0⟩).translate
        ⟨double.fin (3 / 2), double.fin 0, double.fin 0⟩)._origin.x = double.fin (2 ^ 54) ∧
    ((⟨⟨double.fin (2 ^ 54), double.fin 0, double.fin 0⟩,
        ⟨double.fin 1, double.fin 0, double.fin 0⟩⟩ : binary64.line3).translate
        (binary64.vector3.add ⟨double.fin (3 / 2), double.fin 0, double.fin 0⟩
          ⟨double.fin (3 / 2), double.fin 0, double.fin 0⟩))._origin.x
      = double.fin (2 ^ 54 + 4) ∧
    ((⟨⟨double.fin (2 ^ 54), double.fin 0, double.fin 0⟩,
        ⟨double.fin 1, double.fin 0, double.fin 0⟩⟩ : binary64.line3).translate
        ⟨double.fin (3 / 2), double.fin 0, double.fin 0⟩).translate
        ⟨double.fin (3 / 2), double.fin 0, double.fin 0⟩
      ≠ (⟨⟨double.fin (2 ^ 54), double.fin 0, double.fin 0⟩,
        ⟨double.fin 1, double.fin 0, double.fin 0⟩⟩ : binary64.line3).translate
        (binary64.vector3.add ⟨double.fin (3 / 2), double.fin 0, double.fin 0⟩
          ⟨double.fin (3 / 2), double.fin 0, double.fin 0⟩) ∧
    ((⟨⟨double.fin (2 ^ 54), double.fin 0, double.fin 0⟩,
        ⟨double.fin (2 ^ 54), double.fin 0, double.fin 0⟩⟩ : binary64.box3).translate
        ⟨double.fin (3 / 2), double.fin 0, double.fin 0⟩).translate
        ⟨double.fin (3 / 2), double.fin 0, double.fin 0⟩
      ≠ (⟨⟨double.fin (2 ^ 54), double.fin 0, double.fin 0⟩,
        ⟨double.fin (2 ^ 54), double.fin 0, double.fin 0⟩⟩ : binary64.box3).translate
        (binary64.vector3.add ⟨double.fin (3 / 2), double.fin 0, double.fin 0⟩
          ⟨double.fin (3 / 2), double.fin 0, double.fin 0⟩) := by
  have hne : double.fin (2 ^ 54) ≠ double.fin (2 ^ 54 + 4) := by
    intro h
    have hv := double.fin.inj h
    norm_num at hv
  have h1 : (((⟨⟨double.fin (2 ^ 54), double.fin 0, double.fin 0⟩,
      ⟨double.fin 1, double.fin 0, double.fin 0⟩⟩ : binary64.line3).translate
      ⟨double.fin (3 / 2), double.fin 0, double.fin 0⟩).translate
      ⟨double.fin (3 / 2), double.fin 0, double.fin 0⟩)._origin.x = double.fin (2 ^ 54) := by
    simp only [binary64.line3.translate, binary64.point3.translate,
      double_add_two54_three_halves]
  have h2 : ((⟨⟨double.fin (2 ^ 54), double.fin 0, double.fin 0⟩,
      ⟨double.fin 1, double.fin 0, double.fin 0⟩⟩ : binary64.line3).translate
      (binary64.vector3.add ⟨double.fin (3 / 2), double.fin 0, double.fin 0⟩
        ⟨double.fin (3 / 2), double.fin 0, double.fin 0⟩))._origin.x
      = double.fin (2 ^ 54 + 4) := by
    simp only [binary64.line3.translate, binary64.point3.translate, binary64.vector3.add,
      double_add_three_halves_twice, double_add_two54_three]
  refine ⟨h1, h2, ?_, ?_⟩
  · intro h
    have hx := congrArg (fun l : binary64.line3 => l._origin.x) h
    simp only [h1, h2] at hx
    exact hne hx
  · intro h
    have hx := congrArg (fun b : binary64.box3 => b._point0.x) h
    simp only [binary64.box3.translate, binary64.point3.translate, binary64.vector3.add,
      double_add_three_halves_twice, double_add_two54_three,
      double_add_two54_three_halves] at hx
    exact hne hx

/-- C3, amended: in double arithmetic, for every line3 and every box3 and all vectors
v1, v2, translating by v1 and then by v2 leaves the entity in the same state as a
single translation by v1 + v2 if and only if, for each coordinate c of each
defining point, the double sums (c + v1) + v2 and c + (v1 + v2) are the same
double; the direction of a line is not part of the condition. The two sums are the
same double for finite c, x, y whenever c + x and x + y are doubles, so that
neither of these two additions rounds. -/
theorem double_translate_translate_iff (l : binary64.line3) (b : binary64.box3)
    (v1 v2 : binary64.vector3) :
    ((l.translate v1).translate v2 = l.translate (v1.add v2) ↔
      (l._origin.x.add v1.x).add v2.x = l._origin.x.add (v1.x.add v2.x) ∧
      (l._origin.y.add v1.y).add v2.y = l._origin.y.add (v1.y.add v2.y) ∧
      (l._origin.z.add v1.z).add v2.z = l._origin.z.add (v1.z.add v2.z)) ∧
    ((b.translate v1).translate v2 = b.translate (v1.add v2) ↔
      ((b._point0.x.add v1.x).add v2.x = b._point0.x.add (v1.x.add v2.x) ∧
       (b._point0.y.add v1.y).add v2.y = b._point0.y.add (v1.y.add v2.y) ∧
       (b._point0.z.add v1.z).add v2.z = b._point0.z.add (v1.z.add v2.z)) ∧
      ((b._point1.x.add v1.x).add v2.x = b._point1.x.add (v1.x.add v2.x) ∧
       (b._point1.y.add v1.y).add v2.y = b._point1.y.add (v1.y.add v2.y) ∧
       (b._point1.z.add v1.z).add v2.z = b._point1.z.add (v1.z.add v2.z))) ∧
    (∀ c x y : ℚ, double.round (c + x) = double.fin (c + x) →
      double.round (x + y) = double.fin (x + y) →
      ((double.fin c).add (double.fin x)).add (double.fin y)
        = (double.fin c).add ((double.fin x).add (double.fin y))) := by
  refine ⟨?_, ?_, ?_⟩
  · simp [binary64.line3.translate, binary64.point3.translate, binary64.vector3.add]
  · simp [binary64.box3.translate, binary64.point3.translate, binary64.vector3.add]
  · intro c x y h1 h2
    simp only [double.add, h1, h2, add_assoc]

/-! ## C4: symmetry of the line predicates -/

theorem vector3_is_equal_comm (a b : vector3) : a.is_equal b = b.is_equal a := by
  simp only [vector3.is_equal]
  rw [is_equal_comm a.x, is_equal_comm a.y, is_equal_comm a.z]

theorem vector3_dot_comm (a b : vector3) : a.dot b = b.dot a := by
  simp only [vector3.dot]; ring

/-- C4: for every two lines a and b, a.is_parallel(b) equals b.is_parallel(a) and
a.is_orthogonal(b) equals b.is_orthogonal(a). -/
theorem line3_is_parallel_is_orthogonal_comm (a b : line3) :
    a.is_parallel_line3 b = b.is_parallel_line3 a ∧
    a.is_orthogonal_line3 b = b.is_orthogonal_line3 a := by
  constructor
  · simp only [line3.is_parallel_line3]
    exact vector3_is_equal_comm _ _
  · simp only [line3.is_orthogonal_line3, vector3.is_orthogonal]
    rw [vector3_dot_comm]

/-! ## C5: parallel lines -/

theorem vector3_norm_along_x (a : real_type) : vector3.norm Rat.sqrt ⟨a, 0, 0⟩ = |a| := by
  have h : vector3.norm Rat.sqrt ⟨a, 0, 0⟩ = Rat.sqrt (a * a) := by
    simp [vector3.norm, vector3.dot]
  rw [h, Rat.sqrt_eq]

/-- C5 fails on the code: the lines with origin (0,0,0), direction (1,0,0) and origin
(0,1,0), direction (2,0,0) are not degenerate and the second direction is twice the
first, yet is_parallel on two lines returns false, because it compares the two
directions with is_equal; the overload for a ray, given the same origin and
direction, returns true; on the example of the claim, where both directions are
(1,0,0), is_parallel on two lines returns true. -/
theorem line3_is_parallel_line3_scaled_direction :
    (⟨2, 0, 0⟩ : vector3) = vector3.scale 2 ⟨1, 0, 0⟩ ∧
    line3.is_degenerated Rat.sqrt ⟨⟨0, 0, 0⟩, ⟨1, 0, 0⟩⟩ = false ∧
    line3.is_degenerated Rat.sqrt ⟨⟨0, 1, 0⟩, ⟨2, 0, 0⟩⟩ = false ∧
    line3.is_parallel_line3 ⟨⟨0, 0, 0⟩, ⟨1, 0, 0⟩⟩ ⟨⟨0, 1, 0⟩, ⟨2, 0, 0⟩⟩ = false ∧
    line3.is_parallel_ray3 Rat.sqrt ⟨⟨0, 0, 0⟩, ⟨1, 0, 0⟩⟩ ⟨⟨0, 1, 0⟩, ⟨2, 0, 0⟩⟩ = true ∧
    line3.is_parallel_line3 ⟨⟨0, 0, 0⟩, ⟨1, 0, 0⟩⟩ ⟨⟨0, 1, 0⟩, ⟨1, 0, 0⟩⟩ = true := by
  refine ⟨?_, ?_, ?_, ?_, ?_, ?_⟩
  · norm_num [vector3.scale]
  · simp only [line3.is_degenerated, line3.direction, vector3.is_degenerated,
      vector3_norm_along_x, is_equal]
    norm_num [Epsilon, Epsilon_Medium]
  · simp only [line3.is_degenerated, line3.direction, vector3.is_degenerated,
      vector3_norm_along_x, is_equal]
    norm_num [Epsilon, Epsilon_Medium]
  · simp only [line3.is_parallel_line3, vector3.is_equal, is_equal]
    norm_num [Epsilon, Epsilon_Medium]
  · simp only [line3.is_parallel_ray3, vector3.is_parallel, vector3.cross, is_equal]
    norm_num [vector3.norm, vector3.dot, Epsilon, Epsilon_Medium]
  · simp only [line3.is_parallel_line3, vector3.is_equal, is_equal]
    norm_num [Epsilon, Epsilon_Medium]

/-! ## C6: reflexivity of the comparisons -/

/-- Over exact scalars every line3 and every box3 is approximately equal and exactly
equal to itself. -/
theorem is_equal_op_eq_refl (l : line3) (b : box3) :
    l.is_equal l = true ∧ l.op_eq l = true ∧ b.is_equal b = true ∧ b.op_eq b = true := by
  refine ⟨?_, ?_, ?_, ?_⟩
  · simp [line3.is_equal, point3_is_equal_self, vector3_is_equal_self]
  · simp [line3.op_eq, point3.op_eq, vector3.op_eq]
  · simp [box3.is_equal, point3_is_equal_self]
  · simp [box3.op_eq, point3.op_eq]

theorem double_is_equal_self (a : ℚ) :
    binary64.is_equal (double.fin a) (double.fin a) = true := by
  simp [binary64.is_equal, double.sub, double.neg, double.add, double.round, double.abs,
    double.lt, binary64.Epsilon]

theorem double_op_eq_self (a : ℚ) : double.op_eq (double.fin a) (double.fin a) = true := by
  simp [double.op_eq]

/-- C6, as stated, fails: in double arithmetic the line and the box whose first
coordinate is NaN are neither approximately equal nor exactly equal to
themselves, and the line and the box whose first coordinate is an infinity are
not approximately equal to themselves. -/
theorem double_is_equal_op_eq_nan :
    binary64.line3.is_equal
      ⟨⟨double.nan, double.fin 0, double.fin 0⟩, ⟨double.fin 1, double.fin 0, double.fin 0⟩⟩
      ⟨⟨double.nan, double.fin 0, double.fin 0⟩, ⟨double.fin 1, double.fin 0, double.fin 0⟩⟩
      = false ∧
    binary64.line3.op_eq
      ⟨⟨double.nan, double.fin 0, double.fin 0⟩, ⟨double.fin 1, double.fin 0, double.fin 0⟩⟩
      ⟨⟨double.nan, double.fin 0, double.fin 0⟩, ⟨double.fin 1, double.fin 0, double.fin 0⟩⟩
      = false ∧
    binary64.box3.is_equal
      ⟨⟨double.nan, double.fin 0, double.fin 0⟩, ⟨double.fin 1, double.fin 1, double.fin 1⟩⟩
      ⟨⟨double.nan, double.fin 0, double.fin 0⟩, ⟨double.fin 1, double.fin 1, double.fin 1⟩⟩
      = false ∧
    binary64.box3.op_eq
      ⟨⟨double.nan, double.fin 0, double.fin 0⟩, ⟨double.fin 1, double.fin 1, double.fin 1⟩⟩
      ⟨⟨double.nan, double.fin 0, double.fin 0⟩, ⟨double.fin 1, double.fin 1, double.fin 1⟩⟩
      = false ∧
    binary64.line3.is_equal
      ⟨⟨double.pinf, double.fin 0, double.fin 0⟩, ⟨double.fin 1, double.fin 0, double.fin 0⟩⟩
      ⟨⟨double.pinf, double.fin 0, double.fin 0⟩, ⟨double.fin 1, double.fin 0, double.fin 0⟩⟩
      = false ∧
    binary64.box3.is_equal
      ⟨⟨double.pinf, double.fin 0, double.fin 0⟩, ⟨double.fin 1, double.fin 1, double.fin 1⟩⟩
      ⟨⟨double.pinf, double.fin 0, double.fin 0⟩, ⟨double.fin 1, double.fin 1, double.fin 1⟩⟩
      = false := by
  refine ⟨rfl, rfl, rfl, rfl, rfl, rfl⟩

/-- C6, amended: in double arithmetic, for every line3 and every box3 whose six
coordinates are finite doubles, the tolerant comparison is_equal of the entity
with itself is true and the exact comparison == of the entity with itself is
true. -/
theorem double_is_equal_op_eq_refl_finite (a0 a1 a2 a3 a4 a5 : ℚ) :
    binary64.line3.is_equal
      ⟨⟨double.fin a0, double.fin a1, double.fin a2⟩,
        ⟨double.fin a3, double.fin a4, double.fin a5⟩⟩
      ⟨⟨double.fin a0, double.fin a1, double.fin a2⟩,
        ⟨double.fin a3, double.fin a4, double.fin a5⟩⟩ = true ∧
    binary64.line3.op_eq
      ⟨⟨double.fin a0, double.fin a1, double.fin a2⟩,
        ⟨double.fin a3, double.fin a4, double.fin a5⟩⟩
      ⟨⟨double.fin a0, double.fin a1, double.fin a2⟩,
        ⟨double.fin a3, double.fin a4, double.fin a5⟩⟩ = true ∧
    binary64.box3.is_equal
      ⟨⟨double.fin a0, double.fin a1, double.fin a2⟩,
        ⟨double.fin a3, double.fin a4, double.fin a5⟩⟩
      ⟨⟨double.fin a0, double.fin a1, double.fin a2⟩,
        ⟨double.fin a3, double.fin a4, double.fin a5⟩⟩ = true ∧
    binary64.box3.op_eq
      ⟨⟨double.fin a0, double.fin a1, double.fin a2⟩,
        ⟨double.fin a3, double.fin a4, double.fin a5⟩⟩
      ⟨⟨double.fin a0, double.fin a1, double.fin a2⟩,
        ⟨double.fin a3, double.fin a4, double.fin a5⟩⟩ = true := by
  refine ⟨?_, ?_, ?_, ?_⟩
  · simp [binary64.line3.is_equal, binary64.point3.is_equal, binary64.vector3.is_equal,
      double_is_equal_self]
  · simp [binary64.line3.op_eq, binary64.point3.op_eq, binary64.vector3.op_eq,
      double_op_eq_self]
  · simp [binary64.box3.is_equal, binary64.point3.is_equal, double_is_equal_self]
  · simp [binary64.box3.op_eq, binary64.point3.op_eq, double_op_eq_self]

/-! ## C7: translate moves the origin only -/

/-- C7: for every line L and vector v, after L.translate(v) the origin of L is the old
origin shifted by v, coordinate by coordinate, and the direction of L is exactly
the direction it had before the call. -/
theorem line3_translate_origin_direction (L : line3) (v : vector3) :
    (L.translate v).origin = L.origin.translate v ∧
    (L.translate v).origin.x = L.origin.x + v.x ∧
    (L.translate v).origin.y = L.origin.y + v.y ∧
    (L.translate v).origin.z = L.origin.z + v.z ∧
    (L.translate v).direction = L.direction := by
  simp [line3.translate, line3.origin, line3.direction, point3.translate]

/-! ## C8: degenerate lines -/

/-- C8: for every line L, L.is_degenerated() is true if and only if the direction
vector of L is degenerate, that is its norm is within Epsilon of zero, and the
result does not depend on the origin of L. -/
theorem line3_is_degenerated_iff (sqrt : real_type → real_type) (L : line3) :
    (L.is_degenerated sqrt = true ↔ L.direction.is_degenerated sqrt = true) ∧
    (L.is_degenerated sqrt = true ↔ |sqrt (L.direction.dot L.direction)| < Epsilon) ∧
    (∀ o : point3, line3.is_degenerated sqrt ⟨o, L.direction⟩ = L.is_degenerated sqrt) := by
  refine ⟨Iff.rfl, ?_, fun _ => rfl⟩
  simp [line3.is_degenerated, vector3.is_degenerated, vector3.norm, is_equal]

/-! ## C9: angle between a line and a plane -/

theorem PI_pos : (0 : real_type) < PI := by norm_num [PI]

/-- C9 fails on the code: for the plane through (0,0,0) with normal (0,0,1), the line
through (0,0,0) with direction (0,0,1) is along the normal of the plane, the angle
between direction and normal is 0, and L.angle(P) is -PI/2, which is not the PI/2
of a line along the normal; the same line held with the opposite direction
(0,0,-1) gives PI/2, so the result changes sign with the orientation of the
direction vector. -/
theorem line3_angle_plane3_along_normal :
    line3.direction ⟨⟨0, 0, 0⟩, ⟨0, 0, 1⟩⟩ = plane3.normal ⟨⟨0, 0, 0⟩, ⟨0, 0, 1⟩⟩ ∧
    vector3.angle Rat.sqrt acos_axes ⟨0, 0, 1⟩ ⟨0, 0, 1⟩ = 0 ∧
    line3.angle_plane3 Rat.sqrt acos_axes ⟨⟨0, 0, 0⟩, ⟨0, 0, 1⟩⟩ ⟨⟨0, 0, 0⟩, ⟨0, 0, 1⟩⟩
      = -(PI / 2) ∧
    line3.angle_plane3 Rat.sqrt acos_axes ⟨⟨0, 0, 0⟩, ⟨0, 0, 1⟩⟩ ⟨⟨0, 0, 0⟩, ⟨0, 0, 1⟩⟩
      ≠ PI / 2 ∧
    line3.reverse ⟨⟨0, 0, 0⟩, ⟨0, 0, 1⟩⟩ = ⟨⟨0, 0, 0⟩, ⟨0, 0, -1⟩⟩ ∧
    line3.angle_plane3 Rat.sqrt acos_axes ⟨⟨0, 0, 0⟩, ⟨0, 0, -1⟩⟩ ⟨⟨0, 0, 0⟩, ⟨0, 0, 1⟩⟩
      = PI / 2 := by
  have ha : vector3.angle Rat.sqrt acos_axes ⟨0, 0, 1⟩ ⟨0, 0, 1⟩ = 0 := by
    simp [vector3.angle, vector3.norm, vector3.dot, acos_axes]
  have hv : line3.angle_plane3 Rat.sqrt acos_axes ⟨⟨0, 0, 0⟩, ⟨0, 0, 1⟩⟩
      ⟨⟨0, 0, 0⟩, ⟨0, 0, 1⟩⟩ = -(PI / 2) := by
    simp only [line3.angle_plane3, ha]
    norm_num
  have hb : vector3.angle Rat.sqrt acos_axes ⟨0, 0, -1⟩ ⟨0, 0, 1⟩ = PI := by
    have hc : (-1 : real_type) ≠ 1 := by norm_num
    simp [vector3.angle, vector3.norm, vector3.dot, acos_axes, hc]
  have hw : line3.angle_plane3 Rat.sqrt acos_axes ⟨⟨0, 0, 0⟩, ⟨0, 0, -1⟩⟩
      ⟨⟨0, 0, 0⟩, ⟨0, 0, 1⟩⟩ = PI / 2 := by
    simp only [line3.angle_plane3, hb]
    ring
  refine ⟨rfl, ha, hv, ?_, ?_, hw⟩
  · rw [hv]
    have := PI_pos
    intro h
    linarith
  · simp [line3.reverse, vector3.neg]

/-! ## C11: the TYPE tags that resolve OTHER_OBJ -/

/-- C11, as stated, fails: for the tags vector, box and frame of the fixed set the
chain on TYPE has no branch, the pointer `other` stays null although OTHER_OBJ is
a valid handle, and with a valid handle on a sphere as OBJ the core predicate is
called with the null pointer (the core here reports whether its second argument
is non-null). -/
theorem select_other_vector_box_frame :
    select_other "vector" (mxArray.object entity_kind.point 1) = Except.ok Option.none ∧
    select_other "box" (mxArray.object entity_kind.point 1) = Except.ok Option.none ∧
    select_other "frame" (mxArray.object entity_kind.point 1) = Except.ok Option.none ∧
    do_isParallel (fun _ other => other.isSome)
      1 [mxArray.chars "isParallel", mxArray.object entity_kind.sphere 0,
        mxArray.object entity_kind.point 1, mxArray.chars "vector"]
      = Except.ok (mxArray.logical false) := by
  refine ⟨rfl, rfl, rfl, rfl⟩

/-- C11, amended: for every kind tag in the set none, point, line, ray, plane,
segment, triangle, circle, sphere passed as TYPE, with a valid handle on a sphere
as OBJ and a handle of the kind of the tag as OTHER_OBJ, the commands isParallel,
isOrthogonal, isCollinear, isCoplanar and intersection call the core operation
with the pointer of OBJ and a non-null pointer on the entity of that kind held by
OTHER_OBJ. -/
theorem mex_other_resolved_known_tag (tag : String) (kind : entity_kind)
    (h : (tag, kind) ∈ [("none", entity_kind.none), ("point", entity_kind.point),
      ("line", entity_kind.line), ("ray", entity_kind.ray), ("plane", entity_kind.plane),
      ("segment", entity_kind.segment), ("triangle", entity_kind.triangle),
      ("circle", entity_kind.circle), ("sphere", entity_kind.sphere)])
    (isParallel isOrthogonal isCollinear isCoplanar : entity_ptr → Option entity_ptr → Bool)
    (intersection : entity_ptr → Option entity_ptr → entity)
    (a0 : mxArray) (obj addr : Nat) :
    do_isParallel isParallel 1 [a0, mxArray.object entity_kind.sphere obj,
        mxArray.object kind addr, mxArray.chars tag]
      = Except.ok (setBoolValue (isParallel ⟨entity_kind.sphere, obj⟩ (some ⟨kind, addr⟩))) ∧
    do_isOrthogonal isOrthogonal 1 [a0, mxArray.object entity_kind.sphere obj,
        mxArray.object kind addr, mxArray.chars tag]
      = Except.ok (setBoolValue (isOrthogonal ⟨entity_kind.sphere, obj⟩ (some ⟨kind, addr⟩))) ∧
    do_isCollinear isCollinear 1 [a0, mxArray.object entity_kind.sphere obj,
        mxArray.object kind addr, mxArray.chars tag]
      = Except.ok (setBoolValue (isCollinear ⟨entity_kind.sphere, obj⟩ (some ⟨kind, addr⟩))) ∧
    do_isCoplanar isCoplanar 1 [a0, mxArray.object entity_kind.sphere obj,
        mxArray.object kind addr, mxArray.chars tag]
      = Except.ok (setBoolValue (isCoplanar ⟨entity_kind.sphere, obj⟩ (some ⟨kind, addr⟩))) ∧
    do_intersection intersection 2 [a0, mxArray.object entity_kind.sphere obj,
        mxArray.object kind addr, mxArray.chars tag]
      = Except.ok (rebox_out (intersection ⟨entity_kind.sphere, obj⟩ (some ⟨kind, addr⟩)),
          mxArray.chars (intersection ⟨entity_kind.sphere, obj⟩ (some ⟨kind, addr⟩)).type) := by
  simp only [List.mem_cons, Prod.mk.injEq, List.mem_singleton, List.not_mem_nil, or_false] at h
  rcases h with h | h | h | h | h | h | h | h | h <;>
    (obtain ⟨htag, hkind⟩ := h; subst htag hkind; exact ⟨rfl, rfl, rfl, rfl, rfl⟩)

/-- Witness for C11: OBJ a handle on the sphere at address 0, TYPE point with a handle
on a point at address 7; the core here reports whether its arguments are these two
pointers. -/
theorem mex_other_resolved_known_tag_witness :
    do_isParallel
      (fun self other => self == ⟨entity_kind.sphere, 0⟩ && other == some ⟨entity_kind.point, 7⟩)
      1 [mxArray.chars "isParallel", mxArray.object entity_kind.sphere 0,
        mxArray.object entity_kind.point 7, mxArray.chars "point"]
      = Except.ok (mxArray.logical true) :=
  (mex_other_resolved_known_tag "point" entity_kind.point (by simp)
    (fun self other => self == ⟨entity_kind.sphere, 0⟩ && other == some ⟨entity_kind.point, 7⟩)
    (fun _ _ => false) (fun _ _ => false) (fun _ _ => false) (fun _ _ => ⟨"none", 0⟩)
    (mxArray.chars "isParallel") 0 7).1

/-! ## C12: unknown TYPE strings -/

/-- A TYPE string that matches no branch of the chain leaves the pointer null, and
no error is raised. -/
theorem select_other_unknown (type : String) (arg_in_2 : mxArray)
    (h : type ∉ ["none", "point", "line", "ray", "plane", "segment", "triangle", "circle",
      "sphere"]) :
    select_other type arg_in_2 = Except.ok Option.none := by
  simp only [List.mem_cons, List.mem_singleton, List.not_mem_nil, or_false, not_or] at h
  obtain ⟨h1, h2, h3, h4, h5, h6, h7, h8, h9⟩ := h
  simp [select_other, h1, h2, h3, h4, h5, h6, h7, h8, h9]
  rfl

/-- C12 fails on the code: for every TYPE string that is none of the tags of the
chain, with a valid handle on a sphere as OBJ, each of the commands isParallel,
isOrthogonal, isCollinear, isCoplanar and intersection raises no error and returns
what the core operation returns on the null pointer. -/
theorem mex_unknown_type_calls_core_with_null (type : String)
    (h : type ∉ ["none", "point", "line", "ray", "plane", "segment", "triangle", "circle",
      "sphere"])
    (isParallel isOrthogonal isCollinear isCoplanar : entity_ptr → Option entity_ptr → Bool)
    (intersection : entity_ptr → Option entity_ptr → entity)
    (a0 a2 : mxArray) (obj : Nat) :
    do_isParallel isParallel 1 [a0, mxArray.object entity_kind.sphere obj, a2,
        mxArray.chars type]
      = Except.ok (setBoolValue (isParallel ⟨entity_kind.sphere, obj⟩ Option.none)) ∧
    do_isOrthogonal isOrthogonal 1 [a0, mxArray.object entity_kind.sphere obj, a2,
        mxArray.chars type]
      = Except.ok (setBoolValue (isOrthogonal ⟨entity_kind.sphere, obj⟩ Option.none)) ∧
    do_isCollinear isCollinear 1 [a0, mxArray.object entity_kind.sphere obj, a2,
        mxArray.chars type]
      = Except.ok (setBoolValue (isCollinear ⟨entity_kind.sphere, obj⟩ Option.none)) ∧
    do_isCoplanar isCoplanar 1 [a0, mxArray.object entity_kind.sphere obj, a2,
        mxArray.chars type]
      = Except.ok (setBoolValue (isCoplanar ⟨entity_kind.sphere, obj⟩ Option.none)) ∧
    do_intersection intersection 2 [a0, mxArray.object entity_kind.sphere obj, a2,
        mxArray.chars type]
      = Except.ok (rebox_out (intersection ⟨entity_kind.sphere, obj⟩ Option.none),
          mxArray.chars (intersection ⟨entity_kind.sphere, obj⟩ Option.none).type) := by
  have hs := select_other_unknown type a2 h
  refine ⟨?_, ?_, ?_, ?_, ?_⟩
  · simp [do_isParallel, MEX_ASSERT, arg_in, mxArrayToString, DATA_GET, convertMat2Ptr, hs]
  · simp [do_isOrthogonal, MEX_ASSERT, arg_in, mxArrayToString, DATA_GET, convertMat2Ptr, hs]
  · simp [do_isCollinear, MEX_ASSERT, arg_in, mxArrayToString, DATA_GET, convertMat2Ptr, hs]
  · simp [do_isCoplanar, MEX_ASSERT, arg_in, mxArrayToString, DATA_GET, convertMat2Ptr, hs]
  · simp [do_intersection, MEX_ASSERT, arg_in, mxArrayToString, DATA_GET, convertMat2Ptr, hs]

/-- Witness for C12: TYPE cube; the core here reports whether its second argument
is non-null, and the command returns false. -/
theorem mex_unknown_type_calls_core_with_null_witness :
    "cube" ∉ ["none", "point", "line", "ray", "plane", "segment", "triangle", "circle",
      "sphere"] ∧
    do_isParallel (fun _ other => other.isSome)
      1 [mxArray.chars "isParallel", mxArray.object entity_kind.sphere 0,
        mxArray.object entity_kind.point 1, mxArray.chars "cube"]
      = Except.ok (mxArray.logical false) :=
  ⟨by decide, (mex_unknown_type_calls_core_with_null "cube" (by decide)
    (fun _ other => other.isSome) (fun _ _ => false) (fun _ _ => false) (fun _ _ => false)
    (fun _ _ => ⟨"none", 0⟩)
    (mxArray.chars "isParallel") (mxArray.object entity_kind.point 1) 0).1⟩

/-! ## C13: the outputs of the command intersection -/

/-- C14 fails on the code: with a valid handle on a sphere as OBJ, the command
setRadius never reads its third input and never writes the radius; it returns the
memory unchanged and puts the current radius in its output. On a sphere of radius
1, setRadius with the value 2 leaves the radius 1, and the following getRadius
returns 1. -/
theorem do_setRadius_leaves_radius :
    (∀ (mem : Nat → sphere) (a0 a2 : mxArray) (obj : Nat),
      do_setRadius mem 0 [a0, mxArray.object entity_kind.sphere obj, a2]
        = Except.ok (mem, setScalarValue (mem obj).radius)) ∧
    do_setRadius
      (fun _ => sphere.ctor (real_mex.value 1) (real_mex.value 0) (real_mex.value 0)
        (real_mex.value 0))
      0 [mxArray.chars "setRadius", mxArray.object entity_kind.sphere 0,
        mxArray.matrix 1 1 [real_mex.value 2]]
      = Except.ok
        (fun _ => sphere.ctor (real_mex.value 1) (real_mex.value 0) (real_mex.value 0)
            (real_mex.value 0),
          mxArray.matrix 1 1 [real_mex.value 1]) ∧
    do_getRadius
      (fun _ => sphere.ctor (real_mex.value 1) (real_mex.value 0) (real_mex.value 0)
        (real_mex.value 0))
      1 [mxArray.chars "getRadius", mxArray.object entity_kind.sphere 0]
      = Except.ok (mxArray.matrix 1 1 [real_mex.value 1]) ∧
    real_mex.value 1 ≠ real_mex.value 2 := by
  refine ⟨fun _ _ _ _ => rfl, rfl, rfl, ?_⟩
  intro h
  have hv := real_mex.value.inj h
  norm_num at hv

/-! ## C15: the number of inputs of the four predicates -/

/-- C15 fails on the code: the call form of the usage text, three inputs (command name,
OBJ a valid handle on a sphere, OTHER_OBJ) and one output, is rejected by each of
the four commands with the error that 4 inputs are expected. -/
theorem mex_predicates_reject_three_inputs :
    do_isParallel (fun _ _ => true)
      1 [mxArray.chars "isParallel", mxArray.object entity_kind.sphere 0,
        mxArray.object entity_kind.point 1]
      = Except.error (mex_fault.error ("mex_sphere( 'isParallel', OBJ, OTHER_OBJ ): " ++
          "expected 4 inputs, nrhs = " ++ toString 3 ++ "\n")) ∧
    do_isOrthogonal (fun _ _ => true)
      1 [mxArray.chars "isOrthogonal", mxArray.object entity_kind.sphere 0,
        mxArray.object entity_kind.point 1]
      = Except.error (mex_fault.error ("mex_sphere( 'isOrthogonal', OBJ, OTHER_OBJ ): " ++
          "expected 4 inputs, nrhs = " ++ toString 3 ++ "\n")) ∧
    do_isCollinear (fun _ _ => true)
      1 [mxArray.chars "isCollinear", mxArray.object entity_kind.sphere 0,
        mxArray.object entity_kind.point 1]
      = Except.error (mex_fault.error ("mex_sphere( 'isCollinear', OBJ, OTHER_OBJ ): " ++
          "expected 4 inputs, nrhs = " ++ toString 3 ++ "\n")) ∧
    do_isCoplanar (fun _ _ => true)
      1 [mxArray.chars "isCoplanar", mxArray.object entity_kind.sphere 0,
        mxArray.object entity_kind.point 1]
      = Except.error (mex_fault.error ("mex_sphere( 'isCoplanar', OBJ, OTHER_OBJ ): " ++
          "expected 4 inputs, nrhs = " ++ toString 3 ++ "\n")) := by
  refine ⟨rfl, rfl, rfl, rfl⟩

/-! ## C16: the command new -/

/-- The command new raises an error when the number of inputs is not 1, 3 or 5, or the
number of outputs is not 1. -/
theorem do_new_wrong_count (nlhs : Nat) (prhs : List mxArray)
    (h : ¬ (prhs.length = 1 ∨ prhs.length = 3 ∨ prhs.length = 5) ∨ nlhs ≠ 1) :
    ∃ msg, do_new nlhs prhs = Except.error (mex_fault.error msg) := by
  by_cases hc : prhs.length = 1 ∨ prhs.length = 3 ∨ prhs.length = 5
  · have hn : nlhs ≠ 1 := by
      rcases h with h | h
      · exact absurd hc h
      · exact h
    refine ⟨"mex_sphere( 'new', [, args] ): " ++ "expected 1 output, nlhs = " ++
      toString nlhs ++ "\n", ?_⟩
    rcases hc with hc | hc | hc <;> simp [do_new, MEX_ASSERT, hc, hn] <;> rfl
  · refine ⟨"mex_sphere( 'new', [, args] ): " ++ "expected 1, 3 or 5 inputs, nrhs = " ++
      toString prhs.length ++ "\n", ?_⟩
    simp only [not_or] at hc
    simp [do_new, MEX_ASSERT, hc.1, hc.2.1, hc.2.2]
    rfl

/-- C16: the command new succeeds only when called with exactly 1, 3 or 5 inputs and
exactly 1 output, and raises an error for every other input or output count; with
3 inputs (a radius and a 3x1 vector) the sphere has the given radius and centre,
with 5 inputs the given radius and centre coordinates, and with 1 input the
radius and the three centre coordinates are NaN. -/
theorem do_new_contract :
    (∀ (nlhs : Nat) (prhs : List mxArray) (s : sphere), do_new nlhs prhs = Except.ok s →
      (prhs.length = 1 ∨ prhs.length = 3 ∨ prhs.length = 5) ∧ nlhs = 1) ∧
    (∀ (nlhs : Nat) (prhs : List mxArray),
      ¬ (prhs.length = 1 ∨ prhs.length = 3 ∨ prhs.length = 5) ∨ nlhs ≠ 1 →
      ∃ msg, do_new nlhs prhs = Except.error (mex_fault.error msg)) ∧
    (∀ (cmd : String) (r x y z : real_mex),
      do_new 1 [mxArray.chars cmd, mxArray.matrix 1 1 [r], mxArray.matrix 3 1 [x, y, z]]
        = Except.ok ⟨r, ⟨x, y, z⟩⟩) ∧
    (∀ (cmd : String) (r cx cy cz : real_mex),
      do_new 1 [mxArray.chars cmd, mxArray.matrix 1 1 [r], mxArray.matrix 1 1 [cx],
        mxArray.matrix 1 1 [cy], mxArray.matrix 1 1 [cz]] = Except.ok ⟨r, ⟨cx, cy, cz⟩⟩) ∧
    (∀ (cmd : String), do_new 1 [mxArray.chars cmd]
      = Except.ok ⟨real_mex.QUIET_NAN,
          ⟨real_mex.QUIET_NAN, real_mex.QUIET_NAN, real_mex.QUIET_NAN⟩⟩) := by
  refine ⟨?_, do_new_wrong_count, fun _ _ _ _ _ => rfl, fun _ _ _ _ _ => rfl, fun _ => rfl⟩
  intro nlhs prhs s hs
  by_contra hc
  have hc2 : ¬ (prhs.length = 1 ∨ prhs.length = 3 ∨ prhs.length = 5) ∨ nlhs ≠ 1 := by
    by_cases h1 : prhs.length = 1 ∨ prhs.length = 3 ∨ prhs.length = 5
    · right
      intro h2
      exact hc ⟨h1, h2⟩
    · left
      exact h1
  obtain ⟨msg, hm⟩ := do_new_wrong_count nlhs prhs hc2
  rw [hm] at hs
  cases hs

/-- Witness for C16: new with one input and one output succeeds, and new with one input
and two outputs raises an error. -/
theorem do_new_contract_witness :
    do_new 1 [mxArray.chars "new"]
      = Except.ok ⟨real_mex.QUIET_NAN,
          ⟨real_mex.QUIET_NAN, real_mex.QUIET_NAN, real_mex.QUIET_NAN⟩⟩ ∧
    ([mxArray.chars "new"].length = 1 ∨ [mxArray.chars "new"].length = 3 ∨
      [mxArray.chars "new"].length = 5) ∧
    (∃ msg, do_new 2 [mxArray.chars "new"] = Except.error (mex_fault.error msg)) :=
  ⟨do_new_contract.2.2.2.2 "new",
    (do_new_contract.1 1 [mxArray.chars "new"] _ (do_new_contract.2.2.2.2 "new")).1,
    do_new_contract.2.1 2 [mxArray.chars "new"] (Or.inr (by decide))⟩

/-! ## C17: the shape checks of new, translate and transform -/

/-- C17 fails on the code: the shape assertions join their two tests with "or". The
command new with a radius and a 3x2 matrix, and the command translate with a valid
handle on a sphere as OBJ and a 3x2 matrix, raise no error and use the first
column; the command transform with a valid handle and a 4x5 matrix raises no error
either. -/
theorem mex_shape_check_accepts_other_shapes (cmd : String) (r x y z u v w : real_mex)
    (translate : sphere → vec3 → sphere) (transform : sphere → List real_mex → sphere)
    (mem : Nat → sphere) (a0 : mxArray) (obj : Nat) :
    do_new 1 [mxArray.chars cmd, mxArray.matrix 1 1 [r], mxArray.matrix 3 2 [x, y, z, u, v, w]]
      = Except.ok ⟨r, ⟨x, y, z⟩⟩ ∧
    do_translate translate mem 0 [a0, mxArray.object entity_kind.sphere obj,
        mxArray.matrix 3 2 [x, y, z, u, v, w]]
      = Except.ok (Function.update mem obj (translate (mem obj) ⟨x, y, z⟩)) ∧
    do_transform transform mem 0 [a0, mxArray.object entity_kind.sphere obj,
        mxArray.matrix 4 5 (List.replicate 20 x)]
      = Except.ok (Function.update mem obj (transform (mem obj) (List.replicate 16 x))) := by
  refine ⟨rfl, rfl, rfl⟩

/-! ## C18: the accessors of the box -/

/-- C18 fails on the code: for the box built from p0 and p1, the getter point_1 returns
the second point p1, and the setter point_1 with q replaces the second point and
keeps the first; on the box from (0,0,0) and (1,1,1) the getter point_1 does not
return (0,0,0). -/
theorem box3_point_1_is_second_point (p0 p1 q : point3) :
    box3.point_1 ⟨p0, p1⟩ = p1 ∧
    box3.point_1_set ⟨p0, p1⟩ q = ⟨p0, q⟩ ∧
    box3.point_1 ⟨⟨0, 0, 0⟩, ⟨1, 1, 1⟩⟩ = ⟨1, 1, 1⟩ ∧
    box3.point_1 ⟨⟨0, 0, 0⟩, ⟨1, 1, 1⟩⟩ ≠ ⟨0, 0, 0⟩ := by
  refine ⟨rfl, rfl, rfl, ?_⟩
  intro h
  have hx := congrArg point3.x h
  simp [box3.point_1] at hx

/-! ## C19: reverse -/

/-- C19: for every line L, L.reverse() replaces the direction by its negation, component
by component, and leaves the origin unchanged, and applying reverse() twice
restores L exactly. -/
theorem line3_reverse_negates_direction (L : line3) :
    L.reverse.direction = L.direction.neg ∧
    L.reverse.direction.x = -L.direction.x ∧
    L.reverse.direction.y = -L.direction.y ∧
    L.reverse.direction.z = -L.direction.z ∧
    L.reverse.origin = L.origin ∧
    L.reverse.reverse = L := by
  obtain ⟨o, ⟨a, b, c⟩⟩ := L
  simp [line3.reverse, line3.direction, line3.origin, vector3.neg]

/-! ## C20: degenerate boxes and the distance of the corners -/

theorem point3_distance_comm (sqrt : real_type → real_type) (p q : point3) :
    p.distance sqrt q = q.distance sqrt p := by
  simp only [point3.distance, point3.sub, vector3.norm, vector3.dot]
  congr 1
  ring

/-- C20: for every box with corners p0 and p1, the distance being the Euclidean one
(the square root is never negative), is_degenerated() is true if and only if the
distance between p0 and p1 is strictly less than Epsilon, which is 1e-10, and the
result is the same when the two corners are swapped. -/
theorem box3_is_degenerated_iff_distance (sqrt : real_type → real_type)
    (hsqrt : ∀ x, 0 ≤ sqrt x) (p0 p1 : point3) :
    (box3.is_degenerated sqrt ⟨p0, p1⟩ = true ↔ p0.distance sqrt p1 < Epsilon) ∧
    Epsilon = 1 / 10 ^ 10 ∧
    box3.is_degenerated sqrt ⟨p1, p0⟩ = box3.is_degenerated sqrt ⟨p0, p1⟩ := by
  refine ⟨?_, ?_, ?_⟩
  · have hd : 0 ≤ p0.distance sqrt p1 := hsqrt _
    rw [box3.is_degenerated, is_equal_iff, sub_zero, abs_of_nonneg hd]
  · norm_num [Epsilon, Epsilon_Medium]
  · simp only [box3.is_degenerated]
    rw [point3_distance_comm]

/-- Witness for C20: with the exact square root on rational squares, the box on (0,0,0)
and (1e-11,0,0) is degenerate in both orders of its corners, their distance 1e-11
being below Epsilon. -/
theorem box3_is_degenerated_iff_distance_witness :
    (∀ x, 0 ≤ Rat.sqrt x) ∧
    point3.distance Rat.sqrt ⟨0, 0, 0⟩ ⟨1.0e-11, 0, 0⟩ < Epsilon ∧
    box3.is_degenerated Rat.sqrt ⟨⟨0, 0, 0⟩, ⟨1.0e-11, 0, 0⟩⟩ = true ∧
    box3.is_degenerated Rat.sqrt ⟨⟨1.0e-11, 0, 0⟩, ⟨0, 0, 0⟩⟩ = true := by
  have h := box3_is_degenerated_iff_distance Rat.sqrt Rat.sqrt_nonneg ⟨0, 0, 0⟩ ⟨1.0e-11, 0, 0⟩
  have hd : point3.distance Rat.sqrt ⟨0, 0, 0⟩ ⟨1.0e-11, 0, 0⟩ < Epsilon := by
    rw [point3_distance_along_x]
    norm_num [Epsilon, Epsilon_Medium, abs_of_pos]
  have h1 := h.1.mpr hd
  refine ⟨Rat.sqrt_nonneg, hd, h1, ?_⟩
  rw [h.2.2]
  exact h1

/-! ## C22: assignment -/

/-- C22, for lines: after the assignment a = b of two lines at the addresses a and b of
a memory, the origin and the direction of a are exactly those of b, b is
unchanged, every other line of the memory is unchanged, and the self-assignment
a = a leaves the memory, hence a, unchanged. The operator of box3 assigns
nothing and has no definition. -/
theorem line3_op_assign_copies_fields (mem : Nat → line3) (a b : Nat) :
    ((line3.op_assign mem a b) a)._origin = (mem b)._origin ∧
    ((line3.op_assign mem a b) a)._direction = (mem b)._direction ∧
    (line3.op_assign mem a b) b = mem b ∧
    (∀ c, c ≠ a → (line3.op_assign mem a b) c = mem c) ∧
    line3.op_assign mem a a = mem := by
  by_cases h : a = b
  · subst h
    simp [line3.op_assign]
  · have hb : b ≠ a := fun e => h e.symm
    refine ⟨?_, ?_, ?_, ?_, ?_⟩
    · simp [line3.op_assign, h, hb]
    · simp [line3.op_assign, h, hb]
    · simp [line3.op_assign, h, hb]
    · intro c hc
      simp [line3.op_assign, h, hc]
    · simp [line3.op_assign]

/-! ## C23: reads of the matrix buffer -/

/-- C23 fails on the code: a 1x1 matrix passes the shape assertion of new and of
translate through its test cols == 1, its buffer has rows*cols = 1 entry, and the
read at index 1 is outside the buffer; a 4x1 matrix passes the shape assertion of
transform through its test rows == 4, its buffer has 4 entries, and the read at
index 4 is outside the buffer. OBJ is a valid handle on a sphere. -/
theorem mex_shape_check_passes_short_buffer (cmd : String) (r x a b c d : real_mex)
    (translate : sphere → vec3 → sphere) (transform : sphere → List real_mex → sphere)
    (mem : Nat → sphere) (a0 : mxArray) (obj : Nat) (msg : String) :
    MEX_ASSERT (1 == 3 || 1 == 1) msg = Except.ok () ∧
    ¬ (1 < 1 * 1) ∧
    read [x] 1 = Except.error mex_fault.undefined ∧
    do_new 1 [mxArray.chars cmd, mxArray.matrix 1 1 [r], mxArray.matrix 1 1 [x]]
      = Except.error mex_fault.undefined ∧
    do_translate translate mem 0 [a0, mxArray.object entity_kind.sphere obj,
        mxArray.matrix 1 1 [x]]
      = Except.error mex_fault.undefined ∧
    MEX_ASSERT (4 == 4 || 1 == 4) msg = Except.ok () ∧
    ¬ (4 < 4 * 1) ∧
    read [a, b, c, d] 4 = Except.error mex_fault.undefined ∧
    do_transform transform mem 0 [a0, mxArray.object entity_kind.sphere obj,
        mxArray.matrix 4 1 [a, b, c, d]]
      = Except.error mex_fault.undefined := by
  refine ⟨rfl, by decide, rfl, rfl, rfl, rfl, by decide, rfl, rfl⟩

end acme
